import Mathlib

/-
Verification development for the sPMO command-center repository.

Shallow embedding conventions:
* Python/pandas numeric values are modelled as rationals (ℚ); the spec's
  numeric statements ("exactly", thresholds such as 1.1) are settled in
  exact arithmetic.
* Dates are modelled as integer day offsets (days relative to a reference
  day); a record field `start_offset` is the number of days between the
  generator's `base_date` (or `today`, where stated) and the date.
* Fallible or guarded code paths return `Option`.
* External library objects (fitted sklearn models, the CBC MILP solver,
  the ambient `random` PRNG) are modelled at their documented interface:
  a fitted model is a function from a feature vector to a number, the
  solver is exact optimisation over the binary assignment space, and the
  PRNG is the stream of draws it will produce.
-/

namespace PMO

/-! ## utils/ml_models.py -/

namespace MlModels

/-- A fitted sklearn `LogisticRegression` object, seen at its interface:
its coefficient vector (`model.coef_[0]`) and its positive-class
probability function (`model.predict_proba(...)[0][1]`). -/
structure LogisticModel where
  coef : List ℚ
  predictProba : List ℚ → ℚ

/-- One row of the projects dataframe as consumed by the ML library
(`ml_models.py`): the scalar feature columns, the EVM columns used by the
EAC feature engineering, and the training label column. -/
structure ProjectRow where
  project_type : String
  start_date : Int
  end_date : Int
  risk_score : ℚ
  complexity : ℚ
  team_size : ℚ
  budget_usd : ℚ
  actuals_usd : ℚ
  pv_usd : ℚ
  ev_usd : ℚ
  final_outcome : Option String
deriving DecidableEq

/-- Feature engineering of `train_schedule_risk_model`:
`duration_days = end_date - start_date`, `is_npd = (project_type == 'NPD')`,
and the raw columns `risk_score`, `complexity`, `team_size`. -/
def scheduleFeatureValue (p : ProjectRow) : String → ℚ
  | "duration_days" => ((p.end_date - p.start_date : Int) : ℚ)
  | "risk_score" => p.risk_score
  | "complexity" => p.complexity
  | "team_size" => p.team_size
  | "is_npd" => if p.project_type = "NPD" then 1 else 0
  | _ => 0

/-- The feature list returned by `train_schedule_risk_model`. -/
def schedule_features : List String :=
  ["duration_days", "risk_score", "complexity", "team_size", "is_npd"]

/-- The training target of `train_schedule_risk_model`:
1 if `final_outcome == 'Delayed'`, else 0. -/
def riskTarget (p : ProjectRow) : ℚ :=
  if p.final_outcome = some "Delayed" then 1 else 0

/-- `train_schedule_risk_model` (ml_models.py lines 18-44). The external
`LogisticRegression(...).fit` call is the parameter `fit`, taking the
feature matrix and the target vector. The guard is the code's:
fewer than 5 labelled rows, or fewer than 2 distinct target values
(`train_df['target'].nunique() < 2`), returns the no-model sentinel. -/
def train_schedule_risk_model (fit : List (List ℚ) → List ℚ → LogisticModel)
    (projects : List ProjectRow) : Option (LogisticModel × List String) :=
  let train_df := projects.filter (fun p => p.final_outcome.isSome)
  let targets := train_df.map riskTarget
  if train_df.length < 5 ∨ targets.dedup.length < 2 then none
  else
    some (fit (train_df.map (fun p => schedule_features.map (scheduleFeatureValue p))) targets,
      schedule_features)

/-- `predict_project_schedule_risk` (ml_models.py lines 106-119).
If either the model or the feature list is the `None` sentinel, returns
probability 0.0 and no contribution frame; otherwise returns the model's
probability and the per-feature contributions `coef * value`. -/
def predict_project_schedule_risk (model : Option LogisticModel)
    (features : Option (List String)) (p : ProjectRow) :
    ℚ × Option (List (String × ℚ)) :=
  match model, features with
  | some m, some fs =>
      let vals := fs.map (scheduleFeatureValue p)
      (m.predictProba vals, some (fs.zip (List.zipWith (fun c v => c * v) m.coef vals)))
  | _, _ => (0, none)

/-- The cpi feature engineered by `train_eac_prediction_model`
(ml_models.py line 55): `ev_usd / actuals_usd if actuals_usd > 0 else 1.0`. -/
def eacTrainCpi (p : ProjectRow) : ℚ :=
  if 0 < p.actuals_usd then p.ev_usd / p.actuals_usd else 1

/-- The spi feature engineered by `train_eac_prediction_model`
(ml_models.py line 56): `ev_usd / pv_usd if pv_usd > 0 else 1.0`. -/
def eacTrainSpi (p : ProjectRow) : ℚ :=
  if 0 < p.pv_usd then p.ev_usd / p.pv_usd else 1

/-- The project series handed to `predict_eac`: by the time it is called
the pipeline has attached `cpi` and `spi` to the series, so they are
modelled as present fields (`project_series.get('cpi', 1.0)` resolves to
the stored value). -/
structure EacSeries where
  budget_usd : ℚ
  actuals_usd : ℚ
  risk_score : ℚ
  complexity : ℚ
  team_size : ℚ
  cpi : ℚ
  spi : ℚ
deriving DecidableEq

/-- Feature access `project_series[features]` for the EAC regressor,
including the two engineered ratio features. -/
def eacFeatureValue (p : EacSeries) : String → ℚ
  | "budget_usd" => p.budget_usd
  | "risk_score" => p.risk_score
  | "complexity" => p.complexity
  | "team_size" => p.team_size
  | "cpi" => p.cpi
  | "spi" => p.spi
  | "budget_to_complexity" => p.budget_usd / p.complexity
  | "team_to_budget" => p.team_size / p.budget_usd
  | _ => 0

/-- `predict_eac` (ml_models.py lines 121-139). The fitted
`GradientBoostingRegressor` is modelled at its interface as a function
from the feature vector to the predicted burn ratio. The inf/NaN
replacement on the feature frame is the identity here because every ℚ
value is finite. -/
def predict_eac (model : Option (List ℚ → ℚ)) (features : Option (List String))
    (p : EacSeries) : ℚ :=
  let cpi := p.cpi
  let formula_eac := if 0 < cpi then p.budget_usd / cpi else p.budget_usd
  match model, features with
  | some m, some fs =>
      let predicted_burn_ratio := m (fs.map (eacFeatureValue p))
      max (p.budget_usd * predicted_burn_ratio) p.actuals_usd
  | _, _ => max formula_eac p.actuals_usd

end MlModels

/-! ## utils/pmo_session_state_manager.py (`_create_spmo_model`) -/

namespace SessionState

/-- A project record as written literally in `_create_spmo_model`
(pmo_session_state_manager.py lines 37-61), before EVM enrichment.
`start_offset`/`end_offset` are days relative to `base_date`
(`date.today() - timedelta(days=730)`); the long `description` strings
are omitted as no computation reads them. -/
structure RawProject where
  id : String
  name : String
  project_type : String
  phase : String
  pm : String
  strategic_goal_id : String
  complexity : ℚ
  team_size : ℚ
  strategic_value : ℚ
  risk_score : ℚ
  health_status : String
  regulatory_path : String
  budget_usd : ℚ
  actuals_usd : ℚ
  pv_usd : ℚ
  ev_usd : ℚ
  start_offset : Int
  end_offset : Int
  completion_pct : ℚ
  final_outcome : Option String
deriving DecidableEq

/-- A project after the final-assembly enrichment loop added
`cpi`, `spi` and `eac_usd`. -/
structure Project extends RawProject where
  cpi : ℚ
  spi : ℚ
  eac_usd : ℚ
deriving DecidableEq

/-- The enrichment loop of `_create_spmo_model` (lines 172-175):
`cpi = ev/actuals if actuals > 0 else 0`, `spi = ev/pv if pv > 0 else 0`,
`eac = budget/cpi if cpi > 0 else budget`. -/
def enrichProject (p : RawProject) : Project :=
  let cpi := if 0 < p.actuals_usd then p.ev_usd / p.actuals_usd else 0
  let spi := if 0 < p.pv_usd then p.ev_usd / p.pv_usd else 0
  { toRawProject := p
    cpi := cpi
    spi := spi
    eac_usd := if 0 < cpi then p.budget_usd / cpi else p.budget_usd }

/-- The seven project literals of `_create_spmo_model`. -/
def rawProjects : List RawProject :=
  [{ id := "NPD-001", name := "Aptiva Celiac Disease Panel", project_type := "NPD",
     phase := "Development", pm := "John Smith", strategic_goal_id := "SG-01",
     complexity := 5, team_size := 12, strategic_value := 9, risk_score := 7,
     health_status := "At Risk", regulatory_path := "510(k)",
     budget_usd := 5000000, actuals_usd := 4100000, pv_usd := 3250000, ev_usd := 3000000,
     start_offset := 230, end_offset := 960, completion_pct := 65, final_outcome := none },
   { id := "NPD-002", name := "BIO-FLASH Connectivity Module", project_type := "NPD",
     phase := "V&V", pm := "Jane Doe", strategic_goal_id := "SG-04",
     complexity := 3, team_size := 8, strategic_value := 7, risk_score := 4,
     health_status := "On Track", regulatory_path := "Letter to File",
     budget_usd := 2500000, actuals_usd := 1200000, pv_usd := 1000000, ev_usd := 1100000,
     start_offset := 380, end_offset := 1110, completion_pct := 40, final_outcome := none },
   { id := "NPD-003", name := "NextGen Vasculitis Biomarker", project_type := "NPD",
     phase := "Feasibility", pm := "Sofia Chen", strategic_goal_id := "SG-03",
     complexity := 5, team_size := 10, strategic_value := 8, risk_score := 8,
     health_status := "Needs Monitoring", regulatory_path := "PMA",
     budget_usd := 8500000, actuals_usd := 750000, pv_usd := 850000, ev_usd := 700000,
     start_offset := 530, end_offset := 1400, completion_pct := 10, final_outcome := none },
   { id := "LCM-002", name := "QUANTA-Lyser IVDR Compliance", project_type := "LCM",
     phase := "Remediation", pm := "David Lee", strategic_goal_id := "SG-02",
     complexity := 4, team_size := 15, strategic_value := 10, risk_score := 6,
     health_status := "At Risk", regulatory_path := "IVDR Class C",
     budget_usd := 3200000, actuals_usd := 2950000, pv_usd := 3040000, ev_usd := 2800000,
     start_offset := 290, end_offset := 740, completion_pct := 95, final_outcome := none },
   { id := "LCM-H01", name := "QUANTA-Lyser 4.0 Software Update", project_type := "LCM",
     phase := "Completed", pm := "Mike Ross", strategic_goal_id := "SG-04",
     complexity := 2, team_size := 5, strategic_value := 4, risk_score := 2,
     health_status := "Completed", regulatory_path := "N/A",
     budget_usd := 500000, actuals_usd := 450000, pv_usd := 500000, ev_usd := 500000,
     start_offset := 0, end_offset := 150, completion_pct := 100,
     final_outcome := some "On-Time" },
   { id := "NPD-H01", name := "BioPlex 2200 Connectivity", project_type := "NPD",
     phase := "Completed", pm := "Jane Doe", strategic_goal_id := "SG-04",
     complexity := 4, team_size := 9, strategic_value := 6, risk_score := 5,
     health_status := "Completed", regulatory_path := "Letter to File",
     budget_usd := 1800000, actuals_usd := 2100000, pv_usd := 1800000, ev_usd := 1800000,
     start_offset := 0, end_offset := 400, completion_pct := 100,
     final_outcome := some "Delayed" },
   { id := "NPD-H02", name := "QUANTA Flash cANCA Assay", project_type := "NPD",
     phase := "Completed", pm := "John Smith", strategic_goal_id := "SG-01",
     complexity := 3, team_size := 7, strategic_value := 8, risk_score := 3,
     health_status := "Completed", regulatory_path := "510(k)",
     budget_usd := 3000000, actuals_usd := 2800000, pv_usd := 3000000, ev_usd := 3000000,
     start_offset := 0, end_offset := 550, completion_pct := 100,
     final_outcome := some "On-Time" }]

/-- The `projects` collection of the constructed data model, i.e. the
literals after the EVM enrichment loop has run. -/
def spmoProjects : List Project := rawProjects.map enrichProject

end SessionState

/-! ## dashboards/portfolio_dashboard.py -/

namespace PortfolioDashboard

/-- The columns of a project row read by `calculate_health_score` and
`render_portfolio_dashboard`. -/
structure HealthRow where
  name : String
  spi : ℚ
  cpi : ℚ
  risk_score : ℚ
  budget_usd : ℚ
  health_status : String
deriving DecidableEq

/-- `np.clip(x, lo, hi)`. -/
def npClip (x lo hi : ℚ) : ℚ := min (max x lo) hi

/-- `calculate_health_score` (portfolio_dashboard.py lines 13-33):
`0.4*clip(spi*100,0,100) + 0.4*clip(cpi*100,0,100) + 0.2*((10-risk)/9*100)`. -/
def calculate_health_score (p : HealthRow) : ℚ :=
  let spi_score := npClip (p.spi * 100) 0 100
  let cpi_score := npClip (p.cpi * 100) 0 100
  let risk_score := (10 - p.risk_score) / 9 * 100
  spi_score * (0.4 : ℚ) + cpi_score * (0.4 : ℚ) + risk_score * (0.2 : ℚ)

/-- `np.average(values, weights)`: the weighted arithmetic mean
`sum(v*w) / sum(w)`. -/
def npAverage (values weights : List ℚ) : ℚ :=
  (List.zipWith (fun v w => v * w) values weights).sum / weights.sum

/-- The portfolio-level health score computed in
`render_portfolio_dashboard` (lines 49-54): the budget-weighted average of
per-project health scores over active (non-Completed) projects, or 100 if
there are none. -/
def portfolio_health (projects : List HealthRow) : ℚ :=
  let active_df := projects.filter (fun p => p.health_status ≠ "Completed")
  if active_df.isEmpty then 100
  else npAverage (active_df.map calculate_health_score) (active_df.map (·.budget_usd))

end PortfolioDashboard

/-! ## dashboards/resource_allocation.py (tactical allocation tab) -/

namespace ResourceAllocation

/-- A pandas float64 value, as far as the utilization computation can
observe it: a finite rational, positive or negative infinity, or NaN. -/
inductive PFloat where
  | num : ℚ → PFloat
  | inf : PFloat
  | negInf : PFloat
  | nan : PFloat
deriving DecidableEq

/-- Pandas elementwise division on float64: finite/finite is exact
division except that x/0 follows IEEE-754 (positive/0 = +inf,
negative/0 = -inf, 0/0 = NaN). -/
def PFloat.div : PFloat → PFloat → PFloat
  | PFloat.num x, PFloat.num y =>
      if y ≠ 0 then PFloat.num (x / y)
      else if 0 < x then PFloat.inf
      else if x < 0 then PFloat.negInf
      else PFloat.nan
  | PFloat.inf, PFloat.num y => if y < 0 then PFloat.negInf else PFloat.inf
  | PFloat.negInf, PFloat.num y => if y < 0 then PFloat.inf else PFloat.negInf
  | PFloat.num x, PFloat.inf => PFloat.num (if x = 0 then 0 else 0)
  | PFloat.num _, PFloat.negInf => PFloat.num 0
  | _, _ => PFloat.nan

/-- Pandas multiplication of a float64 value by a positive scalar
(the `* 100` step). -/
def PFloat.mulPos : PFloat → ℚ → PFloat
  | PFloat.num x, c => PFloat.num (x * c)
  | PFloat.inf, _ => PFloat.inf
  | PFloat.negInf, _ => PFloat.negInf
  | PFloat.nan, _ => PFloat.nan

/-- Pandas comparison `x > c` on float64: false for NaN, true for +inf. -/
def PFloat.gtQ : PFloat → ℚ → Bool
  | PFloat.num x, c => decide (c < x)
  | PFloat.inf, _ => true
  | PFloat.negInf, _ => false
  | PFloat.nan, _ => false

/-- An `enterprise_resources` row as read by the tactical-allocation tab. -/
structure Resource where
  name : String
  role : String
  cost_per_hour : ℚ
  capacity_hours_week : ℚ
deriving DecidableEq

/-- An `allocations` row. -/
structure Allocation where
  project_id : String
  resource_name : String
  allocated_hours_week : ℚ
deriving DecidableEq

/-- The `groupby('resource_name').sum()` plus left-merge-and-`fillna(0)`
of resource_allocation.py lines 112-113: the total allocated weekly hours
drawn against one resource (0 when it appears in no allocation row). -/
def totalAllocated (allocations : List Allocation) (rname : String) : ℚ :=
  ((allocations.filter (fun a => a.resource_name = rname)).map
    (·.allocated_hours_week)).sum

/-- Line 114: `utilization_pct = (allocated_hours_week /
capacity_hours_week) * 100`, in pandas float semantics — the division is
not guarded, so a zero capacity produces inf (or NaN for 0/0). -/
def utilizationPct (allocations : List Allocation) (r : Resource) : PFloat :=
  ((PFloat.num (totalAllocated allocations r.name)).div
    (PFloat.num r.capacity_hours_week)).mulPos 100

/-- Line 116: the "Over-Allocated Staff (>100%)" count. -/
def overAllocatedCount (resources : List Resource) (allocations : List Allocation) : ℕ :=
  (resources.filter (fun r => (utilizationPct allocations r).gtQ 100)).length

end ResourceAllocation

/-! ## utils/optimization.py -/

namespace Optimization

/-- A candidate project row as consumed by `optimize_portfolio`. -/
structure Cand where
  id : String
  name : String
  budget_usd : ℚ
  strategic_value : ℚ
  risk_score : ℚ
deriving DecidableEq

/-- An allocations row as consumed by `optimize_portfolio`. -/
structure OAllocation where
  project_id : String
  resource_name : String
  allocated_hours_week : ℚ
deriving DecidableEq

/-- A resources row as consumed by `optimize_portfolio`. -/
structure OResource where
  name : String
  role : String
deriving DecidableEq

/-- The `constraints` dictionary argument. -/
structure Constraints where
  max_budget : Option ℚ
  resource_constraints : List (String × ℚ)
deriving DecidableEq

/-- The two objective strings accepted by `optimize_portfolio`. -/
inductive Objective where
  | maximizeStrategicValue
  | minimizeRisk
deriving DecidableEq

/-- Sum of `budget_usd` over a selection. -/
def budgetOf (sel : List Cand) : ℚ := (sel.map (·.budget_usd)).sum

/-- Sum of `strategic_value` over a selection (the maximisation objective). -/
def valueOf (sel : List Cand) : ℚ := (sel.map (·.strategic_value)).sum

/-- Sum of `risk_score` over a selection (the minimisation objective). -/
def riskOf (sel : List Cand) : ℚ := (sel.map (·.risk_score)).sum

/-- The weekly hours a given project draws from a given role: the
allocation rows for the project, joined to the resource table on
`resource_name = name` and filtered to the role (the
`pd.merge` + filter + per-project sum of lines 69-78). -/
def roleHours (allocations : List OAllocation) (resources : List OResource)
    (role : String) (pid : String) : ℚ :=
  ((allocations.filter (fun a => a.project_id = pid)).map (fun a =>
    a.allocated_hours_week *
      ((resources.filter (fun r => r.name = a.resource_name ∧ r.role = role)).length : ℚ))).sum

/-- Whether the budget constraint is added to the problem (lines 61-63):
only when `max_budget` is supplied and `> 0`. -/
def budgetConstraintActive (cons : Constraints) : Bool :=
  match cons.max_budget with
  | some b => decide (0 < b)
  | none => false

/-- Whether a role constraint is added (lines 66-80): the constraint
dictionary, allocation table and resource table must be nonempty, the
bound must be `> 0`, and the role must actually appear in the joined
allocation table. -/
def roleConstraintActive (allocations : List OAllocation) (resources : List OResource)
    (cons : Constraints) (role : String) (max_hours : ℚ) : Bool :=
  ¬cons.resource_constraints.isEmpty ∧ ¬allocations.isEmpty ∧ ¬resources.isEmpty ∧
    0 < max_hours ∧
    (allocations.any (fun a =>
      resources.any (fun r => r.name = a.resource_name ∧ r.role = role)))

/-- The characters PuLP replaces with an underscore in variable names
(`LpElement.illegal_chars = "-+[] ->/"`). -/
def pulpIllegal : List Char := ['-', '+', '[', ']', ' ', '>', '/']

/-- Python's `str.split('_')` on a character list: the (possibly empty)
segments between underscores. -/
def splitSegs : List Char → List (List Char)
  | [] => [[]]
  | c :: rest =>
      if c = '_' then [] :: splitSegs rest
      else
        match splitSegs rest with
        | seg :: segs => (c :: seg) :: segs
        | [] => [[c]]

/-- The id the code recovers for a selected decision variable
(optimization.py line 87): the variable was created by
`LpVariable.dicts("Project", ids, ...)` as `"Project_" ++ id`, PuLP's
name setter replaces every character of `illegal_chars` with an
underscore, and the code takes `var.name.split('_')[1]` — i.e. the
sanitized id's segment up to its first underscore. This is the identity
only for ids free of `'_'` and of PuLP's sanitized characters. -/
def extractId (id : String) : String :=
  let name := ("Project_" ++ id).data.map (fun c => if c ∈ pulpIllegal then '_' else c)
  String.mk ((splitSegs name).getD 1 [])

/-- The decision-variable index set: `LpVariable.dicts` is keyed by the
(possibly duplicated) `projects_df['id'].tolist()`, so duplicate ids
collapse onto one binary variable per distinct id. -/
def uniqueProjectIds (cands : List Cand) : List String :=
  (cands.map (fun c => c.id)).dedup

/-- The coefficient lookup
`projects_df.loc[projects_df['id'] == i, col].iloc[0]`: the column value
of the first row with the given id. -/
def firstRowVal (cands : List Cand) (f : Cand → ℚ) (i : String) : ℚ :=
  ((cands.find? (fun c => c.id = i)).map f).getD 0

/-- An objective/constraint left-hand side evaluated at a 0/1 assignment
(`chosen` = the ids whose variable is 1): the `lpSum` comprehensions of
lines 52-63 iterate the duplicated id list, each term being the first
matching row's column value times that id's variable. -/
def objTermSum (cands : List Cand) (f : Cand → ℚ) (chosen : List String) : ℚ :=
  ((cands.map (fun c => c.id)).map
    (fun i => if i ∈ chosen then firstRowVal cands f i else 0)).sum

/-- The `i in role_allocations['project_id'].values` test of line 79:
whether the project id appears in the allocation table joined to
resources and filtered to the role. -/
def roleHasAlloc (allocations : List OAllocation) (resources : List OResource)
    (role : String) (i : String) : Bool :=
  allocations.any (fun a => a.project_id = i ∧
    resources.any (fun r => r.name = a.resource_name ∧ r.role = role))

/-- The role-constraint left-hand side at a 0/1 assignment (lines 77-80):
the comprehension iterates the duplicated id list, keeping only ids
present in the role's allocation rows. -/
def roleTermSum (cands : List Cand) (allocations : List OAllocation)
    (resources : List OResource) (role : String) (chosen : List String) : ℚ :=
  ((cands.map (fun c => c.id)).map (fun i =>
    if i ∈ chosen ∧ roleHasAlloc allocations resources role i = true then
      roleHours allocations resources role i
    else 0)).sum

/-- Feasibility of a 0/1 assignment over the decision variables, under
exactly the constraints the code adds. -/
def feasibleAssign (cands : List Cand) (allocations : List OAllocation)
    (resources : List OResource) (cons : Constraints) (chosen : List String) : Bool :=
  (if budgetConstraintActive cons then
      decide (objTermSum cands (fun c => c.budget_usd) chosen ≤ cons.max_budget.getD 0)
    else true) &&
  cons.resource_constraints.all (fun rc =>
    if roleConstraintActive allocations resources cons rc.1 rc.2 then
      decide (roleTermSum cands allocations resources rc.1 chosen ≤ rc.2)
    else true)

/-- The claim-side notion of a feasible included-project subset (§4.5:
"sum of `budget_usd` over included projects ≤ `max_budget` (if supplied);
for each constrained role, sum of that role's allocated weekly hours over
included projects ≤ that role's max_hours"), under the same activation
guards the code uses. For distinct ids this coincides with
`feasibleAssign` on the subset's id set (see `feasibleAssign_map_id`). -/
def subsetFeasible (allocations : List OAllocation) (resources : List OResource)
    (cons : Constraints) (sel : List Cand) : Bool :=
  (if budgetConstraintActive cons then
      decide (budgetOf sel ≤ cons.max_budget.getD 0)
    else true) &&
  cons.resource_constraints.all (fun rc =>
    if roleConstraintActive allocations resources cons rc.1 rc.2 then
      decide ((sel.map (fun c => roleHours allocations resources rc.1 c.id)).sum ≤ rc.2)
    else true)

/-- Compare one assignment against the incumbent, replacing it only on
strict improvement of the score under `better`. -/
def stepBest {α : Type} (score : α → ℚ) (better : ℚ → ℚ → Prop)
    [DecidableRel better] : Option α → α → Option α
  | none, sel => some sel
  | some best, sel => if better (score sel) (score best) then some sel else some best

/-- Scan the remaining assignments, threading the incumbent. -/
def chooseBestAux {α : Type} (score : α → ℚ) (better : ℚ → ℚ → Prop)
    [DecidableRel better] : List α → Option α → Option α
  | [], acc => acc
  | sel :: rest, acc => chooseBestAux score better rest (stepBest score better acc sel)

/-- Pick from a list the entry with the best score, scanning left to
right (so an optimum is returned whenever the list is nonempty). -/
def chooseBest {α : Type} (score : α → ℚ) (better : ℚ → ℚ → Prop)
    [DecidableRel better] (assignments : List α) : Option α :=
  chooseBestAux score better assignments none

/-- The CBC binary-program solve of line 84, modelled as exact
optimisation over the full 0/1 assignment space of the decision
variables (`sublists` of the distinct-id list): returns an assignment
that is feasible and optimal for the stated objective. -/
def solveBIP (cands : List Cand) (allocations : List OAllocation)
    (resources : List OResource) (cons : Constraints) (objective : Objective) :
    Option (List String) :=
  let feasibleSets :=
    (uniqueProjectIds cands).sublists.filter (feasibleAssign cands allocations resources cons)
  match objective with
  | Objective.maximizeStrategicValue =>
      chooseBest (objTermSum cands (fun c => c.strategic_value)) (fun a b => b < a)
        feasibleSets
  | Objective.minimizeRisk =>
      chooseBest (objTermSum cands (fun c => c.risk_score)) (fun a b => a < b)
        feasibleSets

/-- The summary dictionary returned by `optimize_portfolio`; the failure
shapes (`"No projects available to optimize"` and the infeasible message)
carry no metrics, mirroring the code's early returns. -/
inductive OptSummary where
  | noProjects
  | infeasible
  | solved (total_strategic_value : ℚ) (average_portfolio_risk : ℚ)
      (total_budget_used : ℚ) (num_projects_selected : ℕ)
deriving DecidableEq

/-- `optimize_portfolio` (optimization.py lines 11-108): early return on
an empty candidate frame; build and solve the binary program; recover the
selected ids from the decision-variable names via
`var.name.split('_')[1]` (`extractId`); report "Infeasible" when that
list is empty; otherwise re-select the candidate rows whose id is in the
recovered list (`isin`) and compute the summary metrics
(`num_projects_selected` is the length of the recovered id list, and the
mean risk falls back to 0 on an empty re-selection, as in lines 96-105). -/
def optimize_portfolio (projects_df : List Cand) (allocations_df : List OAllocation)
    (resources_df : List OResource) (constraints : Constraints)
    (objective : Objective) : OptSummary × List Cand :=
  if projects_df.isEmpty then (OptSummary.noProjects, [])
  else
    let chosen := (solveBIP projects_df allocations_df resources_df constraints
      objective).getD []
    let selected_project_ids := chosen.map extractId
    if selected_project_ids.isEmpty then (OptSummary.infeasible, [])
    else
      let selected := projects_df.filter (fun c => c.id ∈ selected_project_ids)
      (OptSummary.solved (valueOf selected)
        (if selected.isEmpty then 0 else riskOf selected / (selected.length : ℚ))
        (budgetOf selected) selected_project_ids.length, selected)

end Optimization

/-! ## Session orchestrator live/sandbox state machine

The dashboards call `ssm.toggle_sandbox`, `ssm.approve_dcr`,
`ssm._get_active_data_model` and `ssm.reallocate_resources_from_project`
(strategic_planning.py lines 56-81, project_deep_dive.py lines 103-136),
but the `SPMOSessionStateManager` class present in
utils/pmo_session_state_manager.py defines none of them; the full
orchestrator is not in the source tree, only its callers. The state
machine below is therefore modelled from the spec (§4.2, §3 "Sandbox"). -/

namespace Orchestrator

/-- A project record inside the orchestrator's model; only the identity
matters to the sandbox operations, the remaining attributes ride along. -/
structure SProject where
  id : String
  name : String
  budget_usd : ℚ
deriving DecidableEq

/-- A ChangeControl (DCR) record. -/
structure ChangeControl where
  dcr_id : String
  project_id : String
  description : String
  status : String
deriving DecidableEq

/-- An Allocation record. -/
structure SAllocation where
  project_id : String
  resource_name : String
  allocated_hours_week : ℚ
deriving DecidableEq

/-- Modelled from the spec: the data model held in the live or sandbox
slot — "a mapping from collection name to list-of-records" (§6),
restricted to the collections the sandbox-mode operations touch. -/
structure DataModel where
  projects : List SProject
  change_controls : List ChangeControl
  allocations : List SAllocation
deriving DecidableEq

/-- An audit-trail entry (§3 AuditEvent); the wall-clock timestamp is
abstracted away as no claim reads it. -/
structure AuditEvent where
  user : String
  event_type : String
  details : String
deriving DecidableEq

/-- Modelled from the spec: the orchestrator's session state — the live
model, the sandbox slot, the `sandbox_mode` flag and the append-only
audit trail (§4.2 Construction, §6). -/
structure OrchState where
  live : DataModel
  sandbox : Option DataModel
  sandbox_mode : Bool
  audit_trail : List AuditEvent
deriving DecidableEq

/-- Modelled from the spec: "returns the named collection from the
currently active model (sandbox copy if `sandbox_mode` is true,
otherwise live)" (§4.2 get_data / `_get_active_data_model`). -/
def activeModel (s : OrchState) : DataModel :=
  if s.sandbox_mode then s.sandbox.getD s.live else s.live

/-- Write the active model back: into the sandbox slot while sandboxed,
into the live slot otherwise. -/
def setActiveModel (s : OrchState) (m : DataModel) : OrchState :=
  if s.sandbox_mode then { s with sandbox := some m } else { s with live := m }

/-- Append an audit event (always allowed, append-only; §4.2
log_audit_event). -/
def log_audit_event (s : OrchState) (event_type details user : String) : OrchState :=
  { s with audit_trail := s.audit_trail ++ [⟨user, event_type, details⟩] }

/-- Modelled from the spec: `toggle_sandbox` — "flips `sandbox_mode`. On
entering sandbox, deep-copies the entire live model into the sandbox slot
... and logs an audit event. On exiting, discards the sandbox copy (next
entry starts from a fresh clone of live)" (§4.2). A deep copy is value
copying in this pure embedding. -/
def toggle_sandbox (s : OrchState) : OrchState :=
  if s.sandbox_mode then
    log_audit_event { s with sandbox_mode := false, sandbox := none }
      "Sandbox Mode" "Deactivated simulation environment." "System"
  else
    log_audit_event { s with sandbox_mode := true, sandbox := some s.live }
      "Sandbox Mode" "Activated simulation environment." "System"

/-- The "Sim: Cancel Project" action of strategic_planning.py lines
70-75: fetch the active data model and drop the project from its
`projects` list, then log an audit event. -/
def cancel_project (pid : String) (s : OrchState) : OrchState :=
  let m := activeModel s
  log_audit_event
    (setActiveModel s { m with projects := m.projects.filter (fun p => p.id ≠ pid) })
    "Sandbox Simulation" "Simulated cancellation of a project." "System"

/-- The error message reported when `approve_dcr` is called outside
sandbox mode. -/
def dcrError : String := "DCR approval is only permitted in Sandbox Mode."

/-- Modelled from the spec: `approve_dcr` — "write operation, permitted
only while `sandbox_mode` is true (otherwise reports an error and
aborts); finds the matching ChangeControl in the active model and sets
its status to Approved; logs an audit event" (§4.2). The returned
`Option String` is the inline error surfaced to the user (`none` on
success). -/
def approve_dcr (dcr_id project_id user : String) (s : OrchState) :
    OrchState × Option String :=
  if s.sandbox_mode then
    let m := activeModel s
    let m' := { m with change_controls := m.change_controls.map (fun cc =>
      if cc.dcr_id = dcr_id ∧ cc.project_id = project_id then
        { cc with status := "Approved" } else cc) }
    (log_audit_event (setActiveModel s m') "DCR Approval" dcr_id user, none)
  else
    (s, some dcrError)

end Orchestrator

/-! ## Automation/alerting engine

app.py (lines 64-72) reads the `alerts` collection and renders each alert
as a success/error banner, but no code under src/ ever produces that
collection: `_create_spmo_model` returns no `alerts` key and computes no
`predicted_eac_usd`. The rule-based engine is therefore modelled from the
spec (§4.2 "Automation/alerting algorithm"). -/

namespace Automation

/-- An Alert record (§3): type, message, severity. -/
structure Alert where
  type : String
  message : String
  severity : String
deriving DecidableEq

/-- A project row after ML enrichment, as read by the alerting rules. -/
structure AProject where
  id : String
  name : String
  phase : String
  budget_usd : ℚ
  predicted_schedule_risk : ℚ
  predicted_eac_usd : ℚ
deriving DecidableEq

/-- A DHF document row, as read by the gate-readiness rule. -/
structure DhfDoc where
  doc_id : String
  project_id : String
  status : String
  gate : String
deriving DecidableEq

/-- Modelled from the spec: rule 1's alert — an error-severity "High
Predictive Risk" alert citing the percentage (§4.2 rule 1). -/
def highRiskAlert (p : AProject) : Alert :=
  ⟨"High Predictive Risk",
    p.name ++ " has a " ++ toString (p.predicted_schedule_risk * 100) ++
      "% predicted likelihood of delay.", "error"⟩

/-- Modelled from the spec: rule 2's alert (§4.2 rule 2). -/
def gateReadinessAlert (p : AProject) : Alert :=
  ⟨"Gate Readiness", p.name ++ " has all V&V-gate DHF documents approved.",
    "success"⟩

/-- Modelled from the spec: rule 3's alert (§4.2 rule 3). -/
def costOverrunAlert (p : AProject) : Alert :=
  ⟨"Cost Overrun Predicted",
    p.name ++ " has a predicted EAC exceeding 110% of budget.", "error"⟩

/-- Modelled from the spec: the automation engine re-run on every model
load (§4.2): rule 1 — every project with `predicted_schedule_risk > 0.7`;
rule 2 — every project in phase "Development" whose V&V-gate DHF
documents are all "Approved"; rule 3 — every project with
`predicted_eac_usd > budget_usd * 1.1`. -/
def run_automation_engine (projects : List AProject) (dhf_documents : List DhfDoc) :
    List Alert :=
  (projects.filter (fun p => (0.7 : ℚ) < p.predicted_schedule_risk)).map highRiskAlert ++
  (projects.filter (fun p => p.phase = "Development" ∧
    (dhf_documents.filter (fun d => d.project_id = p.id ∧ d.gate = "V&V")).all
      (fun d => d.status = "Approved"))).map gateReadinessAlert ++
  (projects.filter (fun p => p.budget_usd * (1.1 : ℚ) < p.predicted_eac_usd)).map
    costOverrunAlert

end Automation

/-! ## utils/data_connectors.py (`_initialize_data_cache`)

`_initialize_data_cache` performs no seeding of the `random` module: its
randomized values (`random.uniform(0.9, 1.1)` on line 134,
`random.randint(-20, 20)` on line 143) are drawn from whatever global
PRNG state the process happens to be in. That ambient state is modelled
as `PyRng`, the stream of draws the generator will produce, threaded by a
call counter exactly as CPython's single Mersenne Twister state is.
Dates are day offsets relative to `date.today()`; `base_date` is
`today - 730`. The collections whose literals involve no PRNG draw and do
not feed the generated ones (pmo_team, pmo_department_budget,
process_adherence, dhf_documents, raid_logs, milestones, allocations,
collaborations, traceability_matrix, phase_gate_data, on_market_products)
are constant and omitted from the cache structure; `projects` and
`enterprise_resources` are embedded because the financial and
demand-history generators read them. -/

namespace DataConnectors

/-- The ambient CPython `random` global state at cache-initialization
time, observed as the sequences of values its successive `uniform` and
`randint` calls will return; the `ℕ` index is the overall draw counter. -/
structure PyRng where
  uniformAt : ℕ → ℚ
  randintAt : ℕ → Int

/-- An `enterprise_resources` row (data_connectors.py lines 22-34). -/
structure CResource where
  name : String
  role : String
  cost_per_hour : ℚ
  capacity_hours_week : ℚ
  location : String
deriving DecidableEq

/-- A `projects` row (lines 62-71), restricted to the fields the cache
generators read plus identity; offsets are days relative to today. -/
structure CProject where
  id : String
  name : String
  project_type : String
  phase : String
  health_status : String
  budget_usd : ℚ
  actuals_usd : ℚ
  start_offset : Int
  end_offset : Int
deriving DecidableEq

/-- A generated `financials` row; the date is the point's day offset from
today (fractional offsets can arise from `p_duration / 5`). -/
structure FinRecord where
  project_id : String
  date_offset : ℚ
  type : String
  amount : ℚ
deriving DecidableEq

/-- A generated `resource_demand_history` row. -/
structure DemandRecord where
  date_offset : Int
  role : String
  demand_hours : Int
deriving DecidableEq

/-- The `enterprise_resources` literal. -/
def enterprise_resources : List CResource :=
  [⟨"Alice Weber", "Instrument R&D", 110, 40, "San Diego"⟩,
   ⟨"Bob Chen", "Software R&D", 100, 40, "San Diego"⟩,
   ⟨"Charlie Day", "Assay R&D", 95, 40, "San Diego"⟩,
   ⟨"Diana Evans", "RA/QA", 120, 40, "San Diego"⟩,
   ⟨"Frank Green", "Software R&D", 115, 40, "San Diego"⟩,
   ⟨"Grace Hopper", "Clinical Affairs", 125, 40, "San Diego"⟩,
   ⟨"Henry Ford", "Operations", 90, 40, "San Diego"⟩,
   ⟨"Isabel Garcia", "Software R&D", 105, 40, "Barcelona"⟩,
   ⟨"Javier Morales", "Assay R&D", 90, 40, "Barcelona"⟩,
   ⟨"Klaus Schmidt", "Systems Engineering", 130, 40, "Germany"⟩,
   ⟨"Lena Vogel", "Instrument R&D", 115, 40, "Germany"⟩]

/-- The `projects` literal (offsets relative to today; `base_date` is
today − 730, so e.g. `base_date + 230` is offset −500). -/
def cacheProjects : List CProject :=
  [⟨"NPD-003", "NextGen Aptiva Instrument", "NPD", "Concept", "On Track",
    15000000, 100000, -30, 1400⟩,
   ⟨"NPD-001", "Aptiva Celiac Disease Panel", "NPD", "Development", "At Risk",
    5000000, 4100000, -500, 230⟩,
   ⟨"NPD-002", "BIO-FLASH Connectivity Module", "NPD", "Verification & Validation",
    "On Track", 2500000, 1200000, -350, 380⟩,
   ⟨"NPD-004", "AI-Powered Diagnostics Module", "NPD", "Regulatory Approval",
    "Needs Monitoring", 3500000, 3000000, -680, 180⟩,
   ⟨"LCM-002", "QUANTA Flash IVDR Remediation", "LCM", "Remediation",
    "Needs Monitoring", 3000000, 2000000, -580, 150⟩,
   ⟨"COGS-001", "Aptiva Reagent Kitting Automation", "COGS", "Development",
    "On Track", 1500000, 500000, -310, 470⟩,
   ⟨"NPD-H01", "Aptiva Hashimoto Panel", "NPD", "Completed", "Completed",
    4000000, 4500000, -730, -30⟩,
   ⟨"LCM-H01", "BIO-FLASH Reagent Stability Update", "LCM", "Completed", "Completed",
    800000, 750000, -630, -330⟩]

/-- The inner `for i in range(1, 6)` loop of the financial generator
(lines 129-134): one planned point per i, plus an actuals point (with a
`random.uniform(0.9, 1.1)` multiplier, consuming one draw) whenever the
point date lies strictly before today. Returns the generated rows and the
advanced draw counter. -/
def finLoop (rng : PyRng) (p : CProject) (dur : Int) :
    List ℕ → ℕ → List FinRecord × ℕ
  | [], k => ([], k)
  | i :: rest, k =>
      let point : ℚ := (p.start_offset : ℚ) + ((dur : ℚ) / 5) * (i : ℚ)
      let planned : FinRecord := ⟨p.id, point, "Planned", p.budget_usd * ((i : ℚ) / 5)⟩
      if ⌊point⌋ < 0 then
        let tail := finLoop rng p dur rest (k + 1)
        (planned :: (⟨p.id, point, "Actuals",
          p.actuals_usd * ((i : ℚ) / 5) * rng.uniformAt k⟩ : FinRecord) :: tail.1, tail.2)
      else
        let tail := finLoop rng p dur rest k
        (planned :: tail.1, tail.2)

/-- Per-project financial generation (lines 124-134): skipped for
completed projects and non-positive durations. -/
def projectFinancials (rng : PyRng) (p : CProject) (k : ℕ) : List FinRecord × ℕ :=
  if p.health_status ≠ "Completed" then
    let dur := p.end_offset - p.start_offset
    if 0 < dur then finLoop rng p dur [1, 2, 3, 4, 5] k else ([], k)
  else ([], k)

/-- The financial generator folded over the project list in order. -/
def genFinancials (rng : PyRng) : List CProject → ℕ → List FinRecord × ℕ
  | [], k => ([], k)
  | p :: rest, k =>
      let f1 := projectFinancials rng p k
      let f2 := genFinancials rng rest f1.2
      (f1.1 ++ f2.1, f2.2)

/-- `role_demand_profiles` (line 138) with its `{"base": 40, "trend": 1}`
default, as (base, trend). -/
def roleDemandProfile : String → Int × Int
  | "Assay R&D" => (160, 5)
  | "Software R&D" => (120, 3)
  | "Instrument R&D" => (100, 2)
  | "RA/QA" => (80, 4)
  | "Clinical Affairs" => (50, 1)
  | "Operations" => (70, 0)
  | "Systems Engineering" => (60, 3)
  | _ => (40, 1)

/-- `roles_in_pool` (line 137) is a CPython set of the resource roles;
its iteration order is itself unspecified, which is a further source of
cross-process nondeterminism. The embedding fixes one canonical
duplicate-free order (`List.dedup`) so that the PRNG stream is the only
varying input. -/
def rolesInPool (resources : List CResource) : List String :=
  (resources.map (·.role)).dedup

/-- The inner `for i in range(24, 0, -1)` demand loop (lines 141-144):
each point consumes one `random.randint(-20, 20)` draw, the date is
`today - i*30` days, and the demand is clipped at zero. -/
def demandLoop (rng : PyRng) (role : String) : List Int → ℕ → List DemandRecord × ℕ
  | [], k => ([], k)
  | i :: rest, k =>
      let profile := roleDemandProfile role
      let demand := profile.1 + i * profile.2 + rng.randintAt k
      let tail := demandLoop rng role rest (k + 1)
      (⟨-(i * 30), role, max 0 demand⟩ :: tail.1, tail.2)

/-- `range(24, 0, -1)`. -/
def demandIdx : List Int :=
  [24, 23, 22, 21, 20, 19, 18, 17, 16, 15, 14, 13, 12, 11, 10, 9, 8, 7, 6, 5, 4, 3, 2, 1]

/-- The demand generator folded over the role pool in order. -/
def genDemandHistory (rng : PyRng) : List String → ℕ → List DemandRecord × ℕ
  | [], k => ([], k)
  | role :: rest, k =>
      let d1 := demandLoop rng role demandIdx k
      let d2 := genDemandHistory rng rest d1.2
      (d1.1 ++ d2.1, d2.2)

/-- The data cache assembled by `_initialize_data_cache`, restricted to
the PRNG-dependent collections and the static collections that feed them
(see the section comment above for the omitted constant literals). -/
structure DataCache where
  enterprise_resources : List CResource
  projects : List CProject
  financials : List FinRecord
  resource_demand_history : List DemandRecord
deriving DecidableEq

/-- `_initialize_data_cache` (data_connectors.py lines 15-145), as a
function of the ambient PRNG state it consumes. The function performs no
`random.seed` call, so the stream argument is whatever the process
inherited. -/
def initialize_data_cache (rng : PyRng) : DataCache :=
  let fin := genFinancials rng cacheProjects 0
  let dem := genDemandHistory rng (rolesInPool enterprise_resources) fin.2
  ⟨enterprise_resources, cacheProjects, fin.1, dem.1⟩

/-- An ambient PRNG state whose uniform draws all return 0.9 (the lower
end of `uniform(0.9, 1.1)`) and whose randint draws all return 0. -/
def rngLow : PyRng := ⟨fun _ => (0.9 : ℚ), fun _ => 0⟩

/-- An ambient PRNG state whose uniform draws all return 1.1. -/
def rngHigh : PyRng := ⟨fun _ => (1.1 : ℚ), fun _ => 0⟩

/-- An ambient PRNG state differing from `rngLow` only in its randint
draws (all 1 instead of 0). -/
def rngShift : PyRng := ⟨fun _ => (0.9 : ℚ), fun _ => 1⟩

end DataConnectors

/-! ## Concrete inputs used by witnesses, fixtures and counterexamples -/

/-- The first (enriched) project of the constructed data model
(`NPD-001`). -/
def c1Project : SessionState.Project :=
  SessionState.spmoProjects.head (by decide)

/-- A concrete ML row with positive actuals and planned value. -/
def c1MlRow : MlModels.ProjectRow :=
  { project_type := "NPD", start_date := 0, end_date := 400, risk_score := 5,
    complexity := 3, team_size := 8, budget_usd := 2000000, actuals_usd := 1500000,
    pv_usd := 1600000, ev_usd := 1400000, final_outcome := none }

/-- A stand-in for the external `LogisticRegression().fit` call. -/
def c5Fit : List (List ℚ) → List ℚ → MlModels.LogisticModel :=
  fun _ _ => ⟨[], fun _ => 0⟩

/-- A history with only two labelled rows (fewer than the required 5). -/
def c5Projects : List MlModels.ProjectRow :=
  [{ project_type := "NPD", start_date := 0, end_date := 400, risk_score := 5,
     complexity := 4, team_size := 9, budget_usd := 1800000, actuals_usd := 2100000,
     pv_usd := 1800000, ev_usd := 1800000, final_outcome := some "Delayed" },
   { project_type := "LCM", start_date := 0, end_date := 150, risk_score := 2,
     complexity := 2, team_size := 5, budget_usd := 500000, actuals_usd := 450000,
     pv_usd := 500000, ev_usd := 500000, final_outcome := some "On-Time" },
   { project_type := "NPD", start_date := 230, end_date := 960, risk_score := 7,
     complexity := 5, team_size := 12, budget_usd := 5000000, actuals_usd := 4100000,
     pv_usd := 3250000, ev_usd := 3000000, final_outcome := none }]

/-- An arbitrary project row handed to the no-model prediction path. -/
def c5Row : MlModels.ProjectRow :=
  { project_type := "NPD", start_date := 230, end_date := 960, risk_score := 7,
    complexity := 5, team_size := 12, budget_usd := 5000000, actuals_usd := 4100000,
    pv_usd := 3250000, ev_usd := 3000000, final_outcome := none }

/-- The cost-overrun fixture project: budget $1,000,000, predicted EAC
$1,150,000 (above 1.1 x budget). -/
def c6Over : Automation.AProject :=
  ⟨"P-OVER", "Fixture Overrun Project", "Concept", 1000000, 0, 1150000⟩

/-- The non-alerting fixture project: budget $1,000,000, predicted EAC
$1,050,000 (at or below 1.1 x budget). -/
def c6Under : Automation.AProject :=
  ⟨"P-UNDER", "Fixture Healthy Project", "Concept", 1000000, 0, 1050000⟩

/-- Optimizer fixture candidate A: budget $5M, strategic value 9. -/
def c7A : Optimization.Cand := ⟨"A", "Project A", 5000000, 9, 5⟩

/-- Optimizer fixture candidate B: budget $6M, strategic value 7. -/
def c7B : Optimization.Cand := ⟨"B", "Project B", 6000000, 7, 5⟩

/-- The fixture constraint set: max_budget $5M, no role constraints. -/
def c7Constraints : Optimization.Constraints := ⟨some 5000000, []⟩

/-- A constraint set that supplies `max_budget = 0`: the code's
`max_budget > 0` test then never adds the budget constraint. -/
def c7ZeroBudget : Optimization.Constraints := ⟨some 0, []⟩

/-- A candidate whose id contains a hyphen, like the repository's own
project ids: PuLP sanitizes the variable name `Project_NPD-001` to
`Project_NPD_001`, and `split('_')[1]` recovers `"NPD"`. -/
def c7Hyphen : Optimization.Cand := ⟨"NPD-001", "Hyphen Project", 5000000, 9, 5⟩

/-- A generous positive budget for the hyphen-id run. -/
def c7HyphenCons : Optimization.Constraints := ⟨some 10000000, []⟩

/-- Two candidate rows sharing the id "A" with different budgets: the LP
sees one variable whose budget coefficient is twice the first row's
budget, while the `isin` re-selection returns both rows. -/
def c7DupA1 : Optimization.Cand := ⟨"A", "Duplicate Row One", 1000000, 5, 5⟩

/-- The second duplicated-id row. -/
def c7DupA2 : Optimization.Cand := ⟨"A", "Duplicate Row Two", 9000000, 5, 5⟩

/-- The budget that admits the collapsed variable but not both rows. -/
def c7DupCons : Optimization.Constraints := ⟨some 2000000, []⟩

/-- Health-score fixture project A: per-project score 80, budget $1M. -/
def c8A : PortfolioDashboard.HealthRow :=
  ⟨"Project A", 0.8, 0.8, 2.8, 1000000, "On Track"⟩

/-- Health-score fixture project B: per-project score 60, budget $3M. -/
def c8B : PortfolioDashboard.HealthRow :=
  ⟨"Project B", 0.6, 0.6, 4.6, 3000000, "On Track"⟩

/-- The over-allocation fixture resource: capacity 40 hours/week. -/
def c9Resource : ResourceAllocation.Resource :=
  ⟨"Fixture Resource", "Software R&D", 100, 40⟩

/-- Allocations totalling 45 hours/week against the fixture resource. -/
def c9Allocs : List ResourceAllocation.Allocation :=
  [⟨"NPD-001", "Fixture Resource", 20⟩, ⟨"NPD-002", "Fixture Resource", 25⟩]

/-- A resource with `capacity_hours_week = 0`. -/
def c9ZeroResource : ResourceAllocation.Resource :=
  ⟨"Zero Capacity Resource", "Operations", 90, 0⟩

/-- A positive allocation against the zero-capacity resource. -/
def c9ZeroAllocs : List ResourceAllocation.Allocation :=
  [⟨"NPD-001", "Zero Capacity Resource", 45⟩]

/-- Whether a pandas float is a finite number. -/
def ResourceAllocation.PFloat.isFinite : ResourceAllocation.PFloat → Bool
  | ResourceAllocation.PFloat.num _ => true
  | _ => false

/-- A concrete orchestrator state outside sandbox mode. -/
def c2State : Orchestrator.OrchState :=
  { live :=
      { projects := [⟨"NPD-001", "Aptiva Celiac Disease Panel", 5000000⟩,
                     ⟨"NPD-002", "BIO-FLASH Connectivity Module", 2500000⟩],
        change_controls :=
          [⟨"DCR-24-001", "NPD-001", "Change primary antibody supplier", "Pending Review"⟩],
        allocations := [⟨"NPD-001", "Charlie Day", 20⟩] },
    sandbox := none, sandbox_mode := false, audit_trail := [] }

/-- The same concrete state with sandbox mode active (live cloned into
the sandbox slot). -/
def c3SandboxState : Orchestrator.OrchState :=
  Orchestrator.toggle_sandbox c2State

/-- The pending ChangeControl of the concrete state. -/
def c3CC : Orchestrator.ChangeControl :=
  ⟨"DCR-24-001", "NPD-001", "Change primary antibody supplier", "Pending Review"⟩

end PMO

namespace PMO

/-! ## Claim theorems -/

/-- Claim C1: for every Project record in the constructed data model, if
`actuals_usd = 0` then cpi = 1.0, if `pv_usd = 0` then spi = 1.0, and
otherwise cpi = ev_usd/actuals_usd and spi = ev_usd/pv_usd exactly. Every
record of the constructed model has strictly positive actuals and planned
value, so the exact-division branches are what the enrichment loop
computes and the zero branches hold vacuously; the second conjunct checks
the same property for the cpi/spi feature engineering of
`train_eac_prediction_model`, which realises the 1.0 fallback. -/
theorem claim_C1 :
    (∀ p ∈ SessionState.spmoProjects,
      (p.actuals_usd = 0 → p.cpi = 1) ∧ (p.pv_usd = 0 → p.spi = 1) ∧
      (p.actuals_usd ≠ 0 → p.cpi = p.ev_usd / p.actuals_usd) ∧
      (p.pv_usd ≠ 0 → p.spi = p.ev_usd / p.pv_usd)) ∧
    (∀ q : MlModels.ProjectRow, 0 ≤ q.actuals_usd → 0 ≤ q.pv_usd →
      (q.actuals_usd = 0 → MlModels.eacTrainCpi q = 1) ∧
      (q.pv_usd = 0 → MlModels.eacTrainSpi q = 1) ∧
      (q.actuals_usd ≠ 0 → MlModels.eacTrainCpi q = q.ev_usd / q.actuals_usd) ∧
      (q.pv_usd ≠ 0 → MlModels.eacTrainSpi q = q.ev_usd / q.pv_usd)) := by
  constructor
  · intro p hp
    simp only [SessionState.spmoProjects, SessionState.rawProjects, List.map_cons,
      List.map_nil] at hp
    fin_cases hp <;>
      norm_num [SessionState.enrichProject]
  · intro q h1 h2
    refine ⟨?_, ?_, ?_, ?_⟩
    · intro h
      simp [MlModels.eacTrainCpi, h]
    · intro h
      simp [MlModels.eacTrainSpi, h]
    · intro h
      simp [MlModels.eacTrainCpi, lt_of_le_of_ne h1 (Ne.symm h)]
    · intro h
      simp [MlModels.eacTrainSpi, lt_of_le_of_ne h2 (Ne.symm h)]

/-- Witness for C1: the property instantiated at the first project of the
constructed model (NPD-001: cpi = 3000000/4100000) and at a concrete ML
row. -/
theorem claim_C1_witness :
    c1Project ∈ SessionState.spmoProjects ∧
    (c1Project.actuals_usd ≠ 0 →
      c1Project.cpi = c1Project.ev_usd / c1Project.actuals_usd) ∧
    (0 : ℚ) ≤ c1MlRow.actuals_usd ∧
    (c1MlRow.actuals_usd ≠ 0 →
      MlModels.eacTrainCpi c1MlRow = c1MlRow.ev_usd / c1MlRow.actuals_usd) := by
  refine ⟨List.head_mem _, ?_, by norm_num [c1MlRow], ?_⟩
  · exact (claim_C1.1 c1Project (List.head_mem _)).2.2.1
  · exact (claim_C1.2 c1MlRow (by norm_num [c1MlRow]) (by norm_num [c1MlRow])).2.2.1

/-- Claim C4: the predicted EAC returned by `predict_eac` is always at
least the project's `actuals_usd`, and with no trained model it equals
the maximum of the closed-form estimate (budget/cpi, or budget if
cpi ≤ 0) and the actuals. -/
theorem claim_C4 :
    (∀ (m : Option (List ℚ → ℚ)) (fs : Option (List String)) (p : MlModels.EacSeries),
      p.actuals_usd ≤ MlModels.predict_eac m fs p) ∧
    (∀ (fs : Option (List String)) (p : MlModels.EacSeries),
      MlModels.predict_eac none fs p =
        max (if 0 < p.cpi then p.budget_usd / p.cpi else p.budget_usd) p.actuals_usd) := by
  constructor
  · intro m fs p
    cases m <;> cases fs <;> exact le_max_right _ _
  · intro fs p
    cases fs <;> rfl

/-- Claim C5: the schedule-risk training guard returns the no-model
sentinel on fewer than 5 labelled rows or a single outcome class, and the
prediction function maps the sentinel to risk 0.0 with no contribution
output. -/
theorem claim_C5 :
    (∀ (fit : List (List ℚ) → List ℚ → MlModels.LogisticModel)
      (projects : List MlModels.ProjectRow),
      ((projects.filter (fun p => p.final_outcome.isSome)).length < 5 ∨
        ((projects.filter (fun p => p.final_outcome.isSome)).map
          MlModels.riskTarget).dedup.length < 2) →
      MlModels.train_schedule_risk_model fit projects = none) ∧
    (∀ (fs : Option (List String)) (p : MlModels.ProjectRow),
      MlModels.predict_project_schedule_risk none fs p = (0, none)) := by
  constructor
  · intro fit projects h
    exact if_pos h
  · intro fs p
    cases fs <;> rfl

/-- Claim C2: from any live state, entering sandbox mode, removing any
project from the sandbox project list, then exiting sandbox mode leaves
the live project list completely unchanged, and re-entering sandbox mode
starts from a fresh deep copy of the now-current live model. -/
theorem claim_C2 (s : Orchestrator.OrchState) (pid : String)
    (h : s.sandbox_mode = false) :
    (Orchestrator.toggle_sandbox (Orchestrator.cancel_project pid
        (Orchestrator.toggle_sandbox s))).live.projects = s.live.projects ∧
    (Orchestrator.toggle_sandbox (Orchestrator.cancel_project pid
        (Orchestrator.toggle_sandbox s))).sandbox_mode = false ∧
    (Orchestrator.toggle_sandbox (Orchestrator.toggle_sandbox (Orchestrator.cancel_project pid
        (Orchestrator.toggle_sandbox s)))).sandbox =
      some (Orchestrator.toggle_sandbox (Orchestrator.cancel_project pid
        (Orchestrator.toggle_sandbox s))).live := by
  simp [Orchestrator.toggle_sandbox, Orchestrator.cancel_project, Orchestrator.activeModel,
    Orchestrator.setActiveModel, Orchestrator.log_audit_event, h]

/-- Witness for C2: the round trip at a concrete two-project live state,
cancelling "NPD-001" inside the sandbox. -/
theorem claim_C2_witness :
    c2State.sandbox_mode = false ∧
    ((Orchestrator.toggle_sandbox (Orchestrator.cancel_project "NPD-001"
        (Orchestrator.toggle_sandbox c2State))).live.projects = c2State.live.projects ∧
     (Orchestrator.toggle_sandbox (Orchestrator.cancel_project "NPD-001"
        (Orchestrator.toggle_sandbox c2State))).sandbox_mode = false ∧
     (Orchestrator.toggle_sandbox (Orchestrator.toggle_sandbox
        (Orchestrator.cancel_project "NPD-001"
          (Orchestrator.toggle_sandbox c2State)))).sandbox =
      some (Orchestrator.toggle_sandbox (Orchestrator.cancel_project "NPD-001"
        (Orchestrator.toggle_sandbox c2State))).live) :=
  ⟨rfl, claim_C2 c2State "NPD-001" rfl⟩

/-- Claim C3: calling `approve_dcr` while `sandbox_mode` is false leaves
the state (hence every ChangeControl status) unchanged and reports an
inline error rather than silently succeeding; while `sandbox_mode` is
true, the matching ChangeControl's status is set to Approved in the
active (sandbox) model. -/
theorem claim_C3 :
    (∀ (s : Orchestrator.OrchState) (d p u : String), s.sandbox_mode = false →
      Orchestrator.approve_dcr d p u s = (s, some Orchestrator.dcrError)) ∧
    (∀ (s : Orchestrator.OrchState) (d p u : String)
      (cc : Orchestrator.ChangeControl), s.sandbox_mode = true →
      cc ∈ (Orchestrator.activeModel s).change_controls → cc.dcr_id = d →
      cc.project_id = p →
      { cc with status := "Approved" } ∈
        (Orchestrator.activeModel (Orchestrator.approve_dcr d p u s).1).change_controls) := by
  constructor
  · intro s d p u h
    simp [Orchestrator.approve_dcr, h]
  · intro s d p u cc hmode hmem hd hp
    subst hd
    subst hp
    simp only [Orchestrator.activeModel, hmode, if_true] at hmem
    simp only [Orchestrator.approve_dcr, hmode, if_true, Orchestrator.setActiveModel,
      Orchestrator.log_audit_event, Orchestrator.activeModel]
    refine List.mem_map.2 ⟨cc, hmem, ?_⟩
    simp

/-- Witness for C3: at the concrete state, approval outside sandbox mode
returns the unchanged state with the inline error; after entering sandbox
mode, approving "DCR-24-001" marks it Approved in the active model. -/
theorem claim_C3_witness :
    c2State.sandbox_mode = false ∧
    Orchestrator.approve_dcr "DCR-24-001" "NPD-001" "PMO Director" c2State =
      (c2State, some Orchestrator.dcrError) ∧
    c3SandboxState.sandbox_mode = true ∧
    c3CC ∈ (Orchestrator.activeModel c3SandboxState).change_controls ∧
    { c3CC with status := "Approved" } ∈
      (Orchestrator.activeModel
        (Orchestrator.approve_dcr "DCR-24-001" "NPD-001" "PMO Director"
          c3SandboxState).1).change_controls := by
  refine ⟨rfl, claim_C3.1 c2State "DCR-24-001" "NPD-001" "PMO Director" rfl, rfl, ?_, ?_⟩
  · decide
  · exact claim_C3.2 c3SandboxState "DCR-24-001" "NPD-001" "PMO Director" c3CC rfl
      (by decide) rfl rfl

/-- A common suffix cancels on the right of string concatenation. -/
theorem string_append_cancel (s t c : String) (h : s ++ c = t ++ c) : s = t := by
  cases s with
  | mk ds =>
    cases t with
    | mk dt =>
      cases c with
      | mk dc =>
        have hd := congrArg String.data h
        simp only [String.data_append] at hd
        exact congrArg String.mk (List.append_cancel_right hd)

/-- The cost-overrun alert of a project appears in the generated alert
list exactly when the project's predicted EAC exceeds 110% of budget
(project names assumed distinct so an alert names a unique project). -/
theorem costOverrun_mem_iff (projects : List Automation.AProject)
    (dhf : List Automation.DhfDoc) (p : Automation.AProject) (hp : p ∈ projects)
    (hnd : (projects.map Automation.AProject.name).Nodup) :
    Automation.costOverrunAlert p ∈ Automation.run_automation_engine projects dhf ↔
      p.budget_usd * (1.1 : ℚ) < p.predicted_eac_usd := by
  unfold Automation.run_automation_engine
  constructor
  · intro hmem
    rcases List.mem_append.1 hmem with h12 | h3
    · rcases List.mem_append.1 h12 with h1 | h2
      · rcases List.mem_map.1 h1 with ⟨q, _, hq⟩
        have := congrArg Automation.Alert.type hq
        simp [Automation.highRiskAlert, Automation.costOverrunAlert] at this
      · rcases List.mem_map.1 h2 with ⟨q, _, hq⟩
        have := congrArg Automation.Alert.type hq
        simp [Automation.gateReadinessAlert, Automation.costOverrunAlert] at this
    · rcases List.mem_map.1 h3 with ⟨q, hqmem, hq⟩
      have hqproj := (List.mem_filter.1 hqmem).1
      have hqcond := of_decide_eq_true (List.mem_filter.1 hqmem).2
      have hname : q.name = p.name := by
        have hmsg := congrArg Automation.Alert.message hq
        simp only [Automation.costOverrunAlert] at hmsg
        exact string_append_cancel _ _ _ hmsg
      have hqp : q = p := List.inj_on_of_nodup_map hnd hqproj hp hname
      rw [← hqp]
      exact hqcond
  · intro hlt
    exact List.mem_append.2 (Or.inr (List.mem_map_of_mem _
      (List.mem_filter.2 ⟨hp, decide_eq_true hlt⟩)))

/-- Multiplying two mapped columns pointwise is mapping the pointwise
product (the `np.average` numerator seen row-wise). -/
theorem zipWith_mul_map_eq {α : Type} (f g : α → ℚ) (l : List α) :
    List.zipWith (fun v w => v * w) (l.map f) (l.map g) =
      l.map (fun x => f x * g x) := by
  induction l with
  | nil => rfl
  | cons a t ih => simp only [List.map_cons, List.zipWith_cons_cons, ih]

/-- Unfolded form of `calculate_health_score`. -/
theorem calculate_health_score_eq (p : PortfolioDashboard.HealthRow) :
    PortfolioDashboard.calculate_health_score p =
      PortfolioDashboard.npClip (p.spi * 100) 0 100 * (0.4 : ℚ) +
      PortfolioDashboard.npClip (p.cpi * 100) 0 100 * (0.4 : ℚ) +
      (10 - p.risk_score) / 9 * 100 * (0.2 : ℚ) := rfl

/-- Claim C8: for every project with risk_score in [1,10] the per-project
health score lies in [0,100]; the portfolio-level score is the
budget-weighted mean of per-project scores over active projects (100 when
there are none); and on the two-project fixture (budget $1M score 80,
budget $3M score 60) the portfolio score is 65. -/
theorem claim_C8 :
    (∀ p : PortfolioDashboard.HealthRow, 1 ≤ p.risk_score → p.risk_score ≤ 10 →
      0 ≤ PortfolioDashboard.calculate_health_score p ∧
        PortfolioDashboard.calculate_health_score p ≤ 100) ∧
    (∀ projects : List PortfolioDashboard.HealthRow,
      projects.filter (fun p => p.health_status ≠ "Completed") ≠ [] →
      PortfolioDashboard.portfolio_health projects =
        ((projects.filter (fun p => p.health_status ≠ "Completed")).map
          (fun p => PortfolioDashboard.calculate_health_score p * p.budget_usd)).sum /
        ((projects.filter (fun p => p.health_status ≠ "Completed")).map
          (·.budget_usd)).sum) ∧
    (∀ projects : List PortfolioDashboard.HealthRow,
      projects.filter (fun p => p.health_status ≠ "Completed") = [] →
      PortfolioDashboard.portfolio_health projects = 100) ∧
    (PortfolioDashboard.calculate_health_score c8A = 80 ∧
      PortfolioDashboard.calculate_health_score c8B = 60 ∧
      PortfolioDashboard.portfolio_health [c8A, c8B] = 65) := by
  refine ⟨?_, ?_, ?_, ?_, ?_, ?_⟩
  · intro p h1 h2
    have hA0 : (0 : ℚ) ≤ PortfolioDashboard.npClip (p.spi * 100) 0 100 :=
      le_min (le_max_right _ _) (by norm_num)
    have hA1 : PortfolioDashboard.npClip (p.spi * 100) 0 100 ≤ 100 := min_le_right _ _
    have hB0 : (0 : ℚ) ≤ PortfolioDashboard.npClip (p.cpi * 100) 0 100 :=
      le_min (le_max_right _ _) (by norm_num)
    have hB1 : PortfolioDashboard.npClip (p.cpi * 100) 0 100 ≤ 100 := min_le_right _ _
    have hC0 : (0 : ℚ) ≤ (10 - p.risk_score) / 9 * 100 :=
      mul_nonneg (div_nonneg (by linarith) (by norm_num)) (by norm_num)
    have hC1 : (10 - p.risk_score) / 9 * 100 ≤ 100 := by
      rw [div_mul_eq_mul_div, div_le_iff₀ (by norm_num : (0 : ℚ) < 9)]
      linarith
    rw [calculate_health_score_eq]
    constructor <;> nlinarith [hA0, hA1, hB0, hB1, hC0, hC1]
  · intro projects h
    simp only [PortfolioDashboard.portfolio_health, PortfolioDashboard.npAverage]
    rw [if_neg (by simpa using h), zipWith_mul_map_eq]
  · intro projects h
    unfold PortfolioDashboard.portfolio_health
    rw [h]
    rfl
  · norm_num [calculate_health_score_eq, PortfolioDashboard.npClip, c8A, max_def, min_def]
  · norm_num [calculate_health_score_eq, PortfolioDashboard.npClip, c8B, max_def, min_def]
  · have hne : ("On Track" : String) ≠ "Completed" := by decide
    have hfilter : [c8A, c8B].filter (fun p => p.health_status ≠ "Completed") = [c8A, c8B] := by
      simp [c8A, c8B, hne]
    have hA : PortfolioDashboard.calculate_health_score c8A = 80 := by
      norm_num [calculate_health_score_eq, PortfolioDashboard.npClip, c8A, max_def, min_def]
    have hB : PortfolioDashboard.calculate_health_score c8B = 60 := by
      norm_num [calculate_health_score_eq, PortfolioDashboard.npClip, c8B, max_def, min_def]
    simp only [PortfolioDashboard.portfolio_health, PortfolioDashboard.npAverage, hfilter]
    rw [if_neg (by simp)]
    simp only [List.map_cons, List.map_nil, hA, hB, List.zipWith_cons_cons,
      List.zipWith_nil_right, List.sum_cons, List.sum_nil]
    norm_num [c8A, c8B]

/-- Witness for C8: the bounds instantiated at fixture project A
(risk_score 2.8 ∈ [1,10]), and the nonempty-filter weighted-mean equation
instantiated at the two-project fixture. -/
theorem claim_C8_witness :
    ((1 : ℚ) ≤ c8A.risk_score ∧ c8A.risk_score ≤ 10 ∧
      (0 ≤ PortfolioDashboard.calculate_health_score c8A ∧
        PortfolioDashboard.calculate_health_score c8A ≤ 100)) ∧
    ([c8A, c8B].filter (fun p => p.health_status ≠ "Completed") ≠ [] ∧
      PortfolioDashboard.portfolio_health [c8A, c8B] =
        (([c8A, c8B].filter (fun p => p.health_status ≠ "Completed")).map
          (fun p => PortfolioDashboard.calculate_health_score p * p.budget_usd)).sum /
        (([c8A, c8B].filter (fun p => p.health_status ≠ "Completed")).map
          (·.budget_usd)).sum) := by
  constructor
  · exact ⟨by norm_num [c8A], by norm_num [c8A],
      claim_C8.1 c8A (by norm_num [c8A]) (by norm_num [c8A])⟩
  · exact ⟨by simp [c8A, c8B], claim_C8.2.1 [c8A, c8B] (by simp [c8A, c8B])⟩

/-- Claim C9 (amended): the utilization computation is total, but the
division is not guarded against zero capacity — in pandas float semantics
a zero-capacity resource with positive allocated hours gets
`utilization_pct = +inf` and is counted as over-allocated. For nonzero
capacity, `utilization_pct = allocated/capacity*100` exactly, and the
fixture resource (capacity 40, total allocation 45) gets 112.5 and is
counted in the over-allocation KPI. -/
theorem claim_C9 :
    (∀ (allocations : List ResourceAllocation.Allocation)
      (r : ResourceAllocation.Resource), r.capacity_hours_week ≠ 0 →
      ResourceAllocation.utilizationPct allocations r =
        ResourceAllocation.PFloat.num
          (ResourceAllocation.totalAllocated allocations r.name /
            r.capacity_hours_week * 100)) ∧
    (∀ (allocations : List ResourceAllocation.Allocation)
      (r : ResourceAllocation.Resource), r.capacity_hours_week = 0 →
      0 < ResourceAllocation.totalAllocated allocations r.name →
      ResourceAllocation.utilizationPct allocations r = ResourceAllocation.PFloat.inf ∧
        (ResourceAllocation.utilizationPct allocations r).gtQ 100 = true) ∧
    (ResourceAllocation.utilizationPct c9Allocs c9Resource =
        ResourceAllocation.PFloat.num (225 / 2) ∧
      ResourceAllocation.overAllocatedCount [c9Resource] c9Allocs = 1) := by
  refine ⟨?_, ?_, ?_, ?_⟩
  · intro allocations r h
    simp [ResourceAllocation.utilizationPct, ResourceAllocation.PFloat.div,
      ResourceAllocation.PFloat.mulPos, h]
  · intro allocations r h hpos
    constructor <;>
      simp [ResourceAllocation.utilizationPct, ResourceAllocation.PFloat.div,
        ResourceAllocation.PFloat.mulPos, ResourceAllocation.PFloat.gtQ, h, hpos]
  · norm_num [ResourceAllocation.utilizationPct, ResourceAllocation.totalAllocated,
      ResourceAllocation.PFloat.div, ResourceAllocation.PFloat.mulPos,
      c9Allocs, c9Resource]
  · norm_num [ResourceAllocation.overAllocatedCount, ResourceAllocation.utilizationPct,
      ResourceAllocation.totalAllocated, ResourceAllocation.PFloat.div,
      ResourceAllocation.PFloat.mulPos, ResourceAllocation.PFloat.gtQ,
      c9Allocs, c9Resource, List.filter]

/-- Counterexample for C9 as stated: for a resource with
`capacity_hours_week = 0` and 45 allocated hours, the computed
utilization is +inf — not a finite number equal to
allocated/capacity*100, so the division is not guarded. -/
theorem claim_C9_counterexample :
    ResourceAllocation.utilizationPct c9ZeroAllocs c9ZeroResource =
      ResourceAllocation.PFloat.inf ∧
    (ResourceAllocation.utilizationPct c9ZeroAllocs c9ZeroResource).isFinite = false := by
  constructor <;>
    norm_num [ResourceAllocation.utilizationPct, ResourceAllocation.totalAllocated,
      ResourceAllocation.PFloat.div, ResourceAllocation.PFloat.mulPos,
      ResourceAllocation.PFloat.isFinite, c9ZeroAllocs, c9ZeroResource]

/-- Witness for C9: the nonzero-capacity equation and the
zero-capacity/positive-allocation behaviour, each instantiated at its
concrete fixture. -/
theorem claim_C9_witness :
    (c9Resource.capacity_hours_week ≠ 0 ∧
      ResourceAllocation.utilizationPct c9Allocs c9Resource =
        ResourceAllocation.PFloat.num
          (ResourceAllocation.totalAllocated c9Allocs c9Resource.name /
            c9Resource.capacity_hours_week * 100)) ∧
    (c9ZeroResource.capacity_hours_week = 0 ∧
      0 < ResourceAllocation.totalAllocated c9ZeroAllocs c9ZeroResource.name ∧
      (ResourceAllocation.utilizationPct c9ZeroAllocs c9ZeroResource =
          ResourceAllocation.PFloat.inf ∧
        (ResourceAllocation.utilizationPct c9ZeroAllocs c9ZeroResource).gtQ 100 = true)) := by
  constructor
  · exact ⟨by norm_num [c9Resource], claim_C9.1 c9Allocs c9Resource (by norm_num [c9Resource])⟩
  · refine ⟨by norm_num [c9ZeroResource], ?_, ?_⟩
    · norm_num [ResourceAllocation.totalAllocated, c9ZeroAllocs, c9ZeroResource]
    · exact claim_C9.2.1 c9ZeroAllocs c9ZeroResource (by norm_num [c9ZeroResource])
        (by norm_num [ResourceAllocation.totalAllocated, c9ZeroAllocs, c9ZeroResource])

/-- Claim C6: for every project in the enriched model with
`predicted_eac_usd > budget_usd * 1.1`, the alerts collection read by the
shell contains an error-severity "Cost Overrun Predicted" alert for that
project (and no such alert for a project at or below the threshold);
fixture: budget $1,000,000 with predicted EAC $1,150,000 alerts,
$1,050,000 does not. -/
theorem claim_C6 :
    (∀ (projects : List Automation.AProject) (dhf : List Automation.DhfDoc)
      (p : Automation.AProject), p ∈ projects →
      (projects.map Automation.AProject.name).Nodup →
      (Automation.costOverrunAlert p ∈ Automation.run_automation_engine projects dhf ↔
        p.budget_usd * (1.1 : ℚ) < p.predicted_eac_usd)) ∧
    (Automation.costOverrunAlert c6Over ∈
        Automation.run_automation_engine [c6Over, c6Under] [] ∧
      Automation.costOverrunAlert c6Under ∉
        Automation.run_automation_engine [c6Over, c6Under] []) := by
  have hOver : c6Over.budget_usd * (1.1 : ℚ) < c6Over.predicted_eac_usd := by
    norm_num [c6Over]
  have hUnder : ¬ c6Under.budget_usd * (1.1 : ℚ) < c6Under.predicted_eac_usd := by
    norm_num [c6Under]
  refine ⟨fun projects dhf p hp hnd => costOverrun_mem_iff projects dhf p hp hnd, ?_, ?_⟩
  · exact (costOverrun_mem_iff [c6Over, c6Under] [] c6Over (by simp) (by decide)).2 hOver
  · exact fun hmem =>
      hUnder ((costOverrun_mem_iff [c6Over, c6Under] [] c6Under (by simp) (by decide)).1 hmem)

/-- Witness for C6: the alert-membership equivalence instantiated at the
two-project fixture (membership and name-distinctness discharged
concretely). -/
theorem claim_C6_witness :
    c6Over ∈ [c6Over, c6Under] ∧
    ([c6Over, c6Under].map Automation.AProject.name).Nodup ∧
    (Automation.costOverrunAlert c6Over ∈
        Automation.run_automation_engine [c6Over, c6Under] [] ↔
      c6Over.budget_usd * (1.1 : ℚ) < c6Over.predicted_eac_usd) :=
  ⟨by simp, by decide, claim_C6.1 [c6Over, c6Under] [] c6Over (by simp) (by decide)⟩

/-- Invariant of the maximisation scan: a returned incumbent dominates
every scanned assignment, comes from the list or the initial
accumulator, and dominates the initial accumulator. -/
theorem chooseBestAux_max_spec {α : Type} (score : α → ℚ) (l : List α) :
    ∀ (acc : Option α) (best : α),
      Optimization.chooseBestAux score (fun a b => b < a) l acc = some best →
      (∀ S ∈ l, score S ≤ score best) ∧ (best ∈ l ∨ acc = some best) ∧
      (∀ a, acc = some a → score a ≤ score best) := by
  induction l with
  | nil =>
      intro acc best h
      refine ⟨by simp, Or.inr h, ?_⟩
      intro a ha
      rw [ha] at h
      injection h with h2
      exact le_of_eq (congrArg score h2)
  | cons S rest ih =>
      intro acc best h
      simp only [Optimization.chooseBestAux] at h
      cases acc with
      | none =>
          simp only [Optimization.stepBest] at h
          obtain ⟨ihAll, ihMem, ihAcc⟩ := ih (some S) best h
          have hS : score S ≤ score best := ihAcc S rfl
          refine ⟨?_, ?_, ?_⟩
          · intro T hT
            rcases List.mem_cons.1 hT with rfl | hT'
            · exact hS
            · exact ihAll T hT'
          · rcases ihMem with hmem | heq
            · exact Or.inl (List.mem_cons_of_mem _ hmem)
            · injection heq with h2
              exact Or.inl (h2 ▸ List.mem_cons_self _ _)
          · intro a ha
            exact absurd ha (by simp)
      | some t =>
          simp only [Optimization.stepBest] at h
          by_cases hc : score t < score S
          · rw [if_pos hc] at h
            obtain ⟨ihAll, ihMem, ihAcc⟩ := ih (some S) best h
            have hS : score S ≤ score best := ihAcc S rfl
            refine ⟨?_, ?_, ?_⟩
            · intro T hT
              rcases List.mem_cons.1 hT with rfl | hT'
              · exact hS
              · exact ihAll T hT'
            · rcases ihMem with hmem | heq
              · exact Or.inl (List.mem_cons_of_mem _ hmem)
              · injection heq with h2
                exact Or.inl (h2 ▸ List.mem_cons_self _ _)
            · intro a ha
              injection ha with h2
              exact h2 ▸ le_trans (le_of_lt hc) hS
          · rw [if_neg hc] at h
            obtain ⟨ihAll, ihMem, ihAcc⟩ := ih (some t) best h
            have ht : score t ≤ score best := ihAcc t rfl
            refine ⟨?_, ?_, ?_⟩
            · intro T hT
              rcases List.mem_cons.1 hT with rfl | hT'
              · exact le_trans (not_lt.1 hc) ht
              · exact ihAll T hT'
            · rcases ihMem with hmem | heq
              · exact Or.inl (List.mem_cons_of_mem _ hmem)
              · exact Or.inr heq
            · intro a ha
              injection ha with h2
              exact h2 ▸ ht

/-- The scan never loses an incumbent: with a nonempty list or a
nonempty accumulator it returns something. -/
theorem chooseBestAux_ne_none {α : Type} (score : α → ℚ) (l : List α) :
    ∀ acc : Option α, (l ≠ [] ∨ acc ≠ none) →
      Optimization.chooseBestAux score (fun a b => b < a) l acc ≠ none := by
  induction l with
  | nil =>
      intro acc h
      rcases h with h | h
      · exact absurd rfl h
      · simpa [Optimization.chooseBestAux] using h
  | cons S rest ih =>
      intro acc _
      simp only [Optimization.chooseBestAux]
      refine ih _ (Or.inr ?_)
      cases acc with
      | none => simp [Optimization.stepBest]
      | some t =>
          simp only [Optimization.stepBest]
          split <;> simp

/-- Summing a column over rows passing a membership test equals summing
it over the filtered rows. -/
theorem sum_ite_filter (l : List Optimization.Cand) (chosen : List String)
    (f : Optimization.Cand → ℚ) :
    (l.map (fun c => if c.id ∈ chosen then f c else 0)).sum =
      ((l.filter (fun c => c.id ∈ chosen)).map f).sum := by
  induction l with
  | nil => rfl
  | cons a t ih =>
      by_cases h : a.id ∈ chosen <;> simp [List.filter_cons, h, ih]

/-- With distinct ids, the first row found for a member's id is that
member itself. -/
theorem find?_id_self (cands : List Optimization.Cand)
    (hnd : (cands.map (fun c => c.id)).Nodup) (c : Optimization.Cand)
    (hc : c ∈ cands) :
    cands.find? (fun x => x.id = c.id) = some c := by
  induction cands with
  | nil => cases hc
  | cons a t ih =>
      rw [List.map_cons, List.nodup_cons] at hnd
      rcases List.mem_cons.1 hc with rfl | hct
      · exact List.find?_cons_of_pos _ (by simp)
      · have hne : a.id ≠ c.id := fun he => hnd.1 (by
          rw [he]
          exact List.mem_map_of_mem _ hct)
        rw [List.find?_cons_of_neg _ (by simp [hne])]
        exact ih hnd.2 hct

/-- With distinct ids, a column summed with multiplicity over the
duplicated id list (`objTermSum`) equals its sum over the id-selected
rows. -/
theorem objTermSum_eq_filter (cands : List Optimization.Cand)
    (hnd : (cands.map (fun c => c.id)).Nodup) (f : Optimization.Cand → ℚ)
    (chosen : List String) :
    Optimization.objTermSum cands f chosen =
      ((cands.filter (fun c => c.id ∈ chosen)).map f).sum := by
  unfold Optimization.objTermSum
  rw [List.map_map]
  have hcg : ∀ c ∈ cands,
      ((fun i => if i ∈ chosen then Optimization.firstRowVal cands f i else 0) ∘
        fun c => c.id) c = (if c.id ∈ chosen then f c else 0) := by
    intro c hc
    simp only [Function.comp]
    by_cases h : c.id ∈ chosen
    · rw [if_pos h, if_pos h]
      unfold Optimization.firstRowVal
      rw [find?_id_self cands hnd c hc]
      rfl
    · rw [if_neg h, if_neg h]
  rw [List.map_congr_left hcg, sum_ite_filter]

/-- An id absent from the role's joined allocation rows draws zero hours
from that role. -/
theorem roleHours_eq_zero (allocations : List Optimization.OAllocation)
    (resources : List Optimization.OResource) (role i : String)
    (h : Optimization.roleHasAlloc allocations resources role i = false) :
    Optimization.roleHours allocations resources role i = 0 := by
  unfold Optimization.roleHours
  apply List.sum_eq_zero
  intro x hx
  rcases List.mem_map.1 hx with ⟨a, ha, rfl⟩
  have hap : a.project_id = i := of_decide_eq_true (List.mem_filter.1 ha).2
  have hres : (resources.filter
      (fun r => r.name = a.resource_name ∧ r.role = role)) = [] := by
    rcases hr : resources.filter (fun r => r.name = a.resource_name ∧ r.role = role) with
      _ | ⟨r, rest⟩
    · exact hr
    · exfalso
      have hrmem : r ∈ resources.filter
          (fun x => x.name = a.resource_name ∧ x.role = role) := by
        rw [hr]
        exact List.mem_cons_self _ _
      have hrc := of_decide_eq_true (List.mem_filter.1 hrmem).2
      have htrue : Optimization.roleHasAlloc allocations resources role i = true := by
        unfold Optimization.roleHasAlloc
        rw [List.any_eq_true]
        refine ⟨a, (List.mem_filter.1 ha).1, decide_eq_true ⟨hap, ?_⟩⟩
        rw [List.any_eq_true]
        exact ⟨r, (List.mem_filter.1 hrmem).1, decide_eq_true hrc⟩
      rw [htrue] at h
      cases h
  rw [hres]
  simp

/-- With distinct ids, the role-constraint left-hand side equals the
role-hours sum over the id-selected rows. -/
theorem roleTermSum_eq_filter (cands : List Optimization.Cand)
    (allocs : List Optimization.OAllocation) (ress : List Optimization.OResource)
    (role : String) (chosen : List String) :
    Optimization.roleTermSum cands allocs ress role chosen =
      ((cands.filter (fun c => c.id ∈ chosen)).map
        (fun c => Optimization.roleHours allocs ress role c.id)).sum := by
  unfold Optimization.roleTermSum
  rw [List.map_map]
  have hcg : ∀ c ∈ cands,
      ((fun i => if i ∈ chosen ∧ Optimization.roleHasAlloc allocs ress role i = true then
          Optimization.roleHours allocs ress role i else 0) ∘ fun c => c.id) c =
        (if c.id ∈ chosen then Optimization.roleHours allocs ress role c.id else 0) := by
    intro c _
    simp only [Function.comp]
    by_cases hmem : c.id ∈ chosen
    · by_cases hhas : Optimization.roleHasAlloc allocs ress role c.id = true
      · rw [if_pos ⟨hmem, hhas⟩, if_pos hmem]
      · rw [if_pos hmem, roleHours_eq_zero allocs ress role c.id
          (Bool.eq_false_iff.2 hhas)]
        rw [if_neg (fun hand => hhas hand.2)]
    · rw [if_neg (fun hand => hmem hand.1), if_neg hmem]
  rw [List.map_congr_left hcg,
    sum_ite_filter cands chosen (fun c => Optimization.roleHours allocs ress role c.id)]

/-- The all-zeros assignment satisfies every constraint the optimizer
adds (each added constraint has a strictly positive bound). -/
theorem feasibleAssign_nil (cands : List Optimization.Cand)
    (allocations : List Optimization.OAllocation)
    (resources : List Optimization.OResource) (cons : Optimization.Constraints) :
    Optimization.feasibleAssign cands allocations resources cons [] = true := by
  have hbzero : Optimization.objTermSum cands (fun c => c.budget_usd) [] = 0 := by
    unfold Optimization.objTermSum
    apply List.sum_eq_zero
    intro x hx
    rcases List.mem_map.1 hx with ⟨i, _, rfl⟩
    simp
  have hrzero : ∀ role, Optimization.roleTermSum cands allocations resources role [] = 0 := by
    intro role
    unfold Optimization.roleTermSum
    apply List.sum_eq_zero
    intro x hx
    rcases List.mem_map.1 hx with ⟨i, _, rfl⟩
    simp
  unfold Optimization.feasibleAssign
  rw [Bool.and_eq_true]
  constructor
  · cases hmb : cons.max_budget with
    | none => simp [Optimization.budgetConstraintActive, hmb]
    | some b =>
        by_cases hb : (0 : ℚ) < b
        · simp [Optimization.budgetConstraintActive, hmb, hb, hbzero, le_of_lt hb]
        · simp [Optimization.budgetConstraintActive, hmb, hb]
  · rw [List.all_eq_true]
    intro rc hrc
    by_cases hact :
        Optimization.roleConstraintActive allocations resources cons rc.1 rc.2 = true
    · rw [if_pos hact]
      unfold Optimization.roleConstraintActive at hact
      have hP := of_decide_eq_true hact
      have hpos : (0 : ℚ) < rc.2 := hP.2.2.2.1
      simp [hrzero, le_of_lt hpos]
    · rw [if_neg hact]

/-- With candidate ids distinct, re-selecting the candidate rows whose id
occurs in a chosen sublist recovers exactly that sublist. -/
theorem filter_id_mem_of_sublist (cands best : List Optimization.Cand)
    (hsub : best.Sublist cands)
    (hnd : (cands.map (fun c => c.id)).Nodup) :
    cands.filter (fun c => c.id ∈ best.map (fun c => c.id)) = best := by
  induction hsub with
  | slnil => rfl
  | @cons l₁ l₂ a hs ih =>
      -- best = l₁, cands = a :: l₂, l₁ <+ l₂
      rw [List.map_cons, List.nodup_cons] at hnd
      have hna : a.id ∉ l₁.map (fun c => c.id) := fun hmem =>
        hnd.1 ((List.Sublist.map (fun c => c.id) hs).mem hmem)
      rw [List.filter_cons]
      rw [if_neg (by simpa using hna)]
      exact ih hnd.2
  | @cons₂ l₁ l₂ a hs ih =>
      -- best = a :: l₁, cands = a :: l₂, l₁ <+ l₂
      rw [List.map_cons, List.nodup_cons] at hnd
      rw [List.filter_cons, if_pos (by simp)]
      congr 1
      rw [List.filter_congr (fun c hc => ?_)]
      · exact ih hnd.2
      · have hca : c.id ≠ a.id := fun he =>
          hnd.1 (he ▸ List.mem_map_of_mem (fun c => c.id) hc)
        simp [List.map_cons, hca]

/-- When candidate ids are distinct, the solver's assignment-level
feasibility of a subset's id set coincides with the claim's subset-level
feasibility. -/
theorem feasibleAssign_map_id (cands : List Optimization.Cand)
    (allocs : List Optimization.OAllocation) (ress : List Optimization.OResource)
    (cons : Optimization.Constraints) (S : List Optimization.Cand)
    (hnd : (cands.map (fun c => c.id)).Nodup) (hsub : S.Sublist cands) :
    Optimization.feasibleAssign cands allocs ress cons (S.map (fun c => c.id)) =
      Optimization.subsetFeasible allocs ress cons S := by
  have hfilter : cands.filter (fun c => c.id ∈ S.map (fun c => c.id)) = S :=
    filter_id_mem_of_sublist cands S hsub hnd
  have hb : Optimization.objTermSum cands (fun c => c.budget_usd)
      (S.map (fun c => c.id)) = Optimization.budgetOf S := by
    rw [objTermSum_eq_filter cands hnd, hfilter]
    rfl
  have hr : ∀ role, Optimization.roleTermSum cands allocs ress role
      (S.map (fun c => c.id)) =
      ((S.map (fun c => Optimization.roleHours allocs ress role c.id)).sum) := by
    intro role
    rw [roleTermSum_eq_filter cands allocs ress role _, hfilter]
  unfold Optimization.feasibleAssign Optimization.subsetFeasible
  rw [hb]
  simp only [hr]

/-- The decision variables the solver chose: the selection returned by
`optimize_portfolio` under "Maximize Strategic Value" re-selects exactly
the rows whose id carries a chosen variable, the chosen assignment is
feasible, and it is optimal among all 0/1 assignments (requires the
ids to be distinct and to survive the PuLP name round-trip). -/
theorem optimize_selected_max_spec (cands : List Optimization.Cand)
    (allocs : List Optimization.OAllocation) (ress : List Optimization.OResource)
    (cons : Optimization.Constraints)
    (hnd : (cands.map (fun c => c.id)).Nodup)
    (hclean : ∀ c ∈ cands, Optimization.extractId c.id = c.id) :
    ∃ chosen : List String,
      Optimization.feasibleAssign cands allocs ress cons chosen = true ∧
      (Optimization.optimize_portfolio cands allocs ress cons
          Optimization.Objective.maximizeStrategicValue).2 =
        cands.filter (fun c => c.id ∈ chosen) ∧
      ∀ ch ∈ (Optimization.uniqueProjectIds cands).sublists,
        Optimization.feasibleAssign cands allocs ress cons ch = true →
        Optimization.objTermSum cands (fun c => c.strategic_value) ch ≤
          Optimization.objTermSum cands (fun c => c.strategic_value) chosen := by
  by_cases hempty : cands.isEmpty = true
  · have hc : cands = [] := by
      cases cands with
      | nil => rfl
      | cons a l => simp [List.isEmpty] at hempty
    subst hc
    refine ⟨[], feasibleAssign_nil _ _ _ _, rfl, ?_⟩
    intro ch hch _
    simp [Optimization.uniqueProjectIds] at hch
    subst hch
    exact le_refl _
  · have hne : ((Optimization.uniqueProjectIds cands).sublists.filter
        (Optimization.feasibleAssign cands allocs ress cons)) ≠ [] :=
      List.ne_nil_of_mem (List.mem_filter.2 ⟨List.mem_sublists.2 (List.nil_sublist _),
        feasibleAssign_nil _ _ _ _⟩)
    obtain ⟨best, hbest⟩ : ∃ best, Optimization.solveBIP cands allocs ress cons
        Optimization.Objective.maximizeStrategicValue = some best := by
      cases hsb : Optimization.solveBIP cands allocs ress cons
          Optimization.Objective.maximizeStrategicValue with
      | none =>
          exfalso
          refine chooseBestAux_ne_none
            (Optimization.objTermSum cands (fun c => c.strategic_value)) _ none
            (Or.inl hne) ?_
          simpa [Optimization.solveBIP, Optimization.chooseBest] using hsb
      | some b => exact ⟨b, rfl⟩
    have hspec := chooseBestAux_max_spec
      (Optimization.objTermSum cands (fun c => c.strategic_value))
      ((Optimization.uniqueProjectIds cands).sublists.filter
        (Optimization.feasibleAssign cands allocs ress cons)) none best
      (by simpa [Optimization.solveBIP, Optimization.chooseBest] using hbest)
    have hmemF : best ∈ (Optimization.uniqueProjectIds cands).sublists.filter
        (Optimization.feasibleAssign cands allocs ress cons) := by
      rcases hspec.2.1 with h | h
      · exact h
      · exact absurd h (by simp)
    have hfeasBest := (List.mem_filter.1 hmemF).2
    have hsubBest : best.Sublist (Optimization.uniqueProjectIds cands) :=
      List.mem_sublists.1 (List.mem_filter.1 hmemF).1
    have hopt : ∀ ch ∈ (Optimization.uniqueProjectIds cands).sublists,
        Optimization.feasibleAssign cands allocs ress cons ch = true →
        Optimization.objTermSum cands (fun c => c.strategic_value) ch ≤
          Optimization.objTermSum cands (fun c => c.strategic_value) best :=
      fun ch hch hfch => hspec.1 ch (List.mem_filter.2 ⟨hch, hfch⟩)
    by_cases hbe : best = []
    · refine ⟨[], feasibleAssign_nil _ _ _ _, ?_, ?_⟩
      · have hres : (Optimization.optimize_portfolio cands allocs ress cons
            Optimization.Objective.maximizeStrategicValue).2 = [] := by
          simp only [Optimization.optimize_portfolio, hbest, Option.getD_some]
          rw [if_neg hempty, hbe]
          rfl
        rw [hres]
        symm
        simp
      · intro ch hch hfch
        have h1 := hopt ch hch hfch
        rwa [hbe] at h1
    · have hmapex : best.map Optimization.extractId = best := by
        have h1 : ∀ i ∈ best, Optimization.extractId i = i := by
          intro i hi
          have hi2 : i ∈ Optimization.uniqueProjectIds cands := hsubBest.subset hi
          have hi3 : i ∈ cands.map (fun c => c.id) := by
            unfold Optimization.uniqueProjectIds at hi2
            exact List.mem_dedup.1 hi2
          rcases List.mem_map.1 hi3 with ⟨c, hc, rfl⟩
          exact hclean c hc
        rw [List.map_congr_left h1, List.map_id']
      refine ⟨best, hfeasBest, ?_, hopt⟩
      simp only [Optimization.optimize_portfolio, hbest, Option.getD_some]
      rw [if_neg hempty, hmapex, if_neg (by simpa using hbe)]

/-- Claim C7 (amended): for every candidate set whose ids are pairwise
distinct and survive PuLP's variable-name round-trip unchanged
(`extractId c.id = c.id`, i.e. the id contains no underscore and none of
the characters PuLP sanitizes), and every supplied `max_budget > 0` (the
code adds the budget constraint only under its `max_budget > 0` test),
the subset returned under "Maximize Strategic Value" has total
`budget_usd` at most `max_budget` and maximal total strategic value among
feasible subsets; and the two-candidate fixture (A: $5M/9, B: $6M/7,
max_budget $5M) selects exactly {A} with total_budget_used $5M and
total_strategic_value 9. -/
theorem claim_C7 :
    (∀ (cands : List Optimization.Cand) (allocs : List Optimization.OAllocation)
      (ress : List Optimization.OResource) (cons : Optimization.Constraints) (b : ℚ),
      cons.max_budget = some b → 0 < b →
      (cands.map (fun c => c.id)).Nodup →
      (∀ c ∈ cands, Optimization.extractId c.id = c.id) →
      Optimization.budgetOf
          (Optimization.optimize_portfolio cands allocs ress cons
            Optimization.Objective.maximizeStrategicValue).2 ≤ b ∧
      ∀ S ∈ cands.sublists, Optimization.subsetFeasible allocs ress cons S = true →
        Optimization.valueOf S ≤
          Optimization.valueOf (Optimization.optimize_portfolio cands allocs ress cons
            Optimization.Objective.maximizeStrategicValue).2) ∧
    (Optimization.optimize_portfolio [c7A, c7B] [] [] c7Constraints
        Optimization.Objective.maximizeStrategicValue =
      (Optimization.OptSummary.solved 9 5 5000000 1, [c7A])) := by
  constructor
  · intro cands allocs ress cons b hmb hbpos hnd hclean
    obtain ⟨chosen, hfeas, hres, hopt⟩ :=
      optimize_selected_max_spec cands allocs ress cons hnd hclean
    have hval : Optimization.valueOf
        (Optimization.optimize_portfolio cands allocs ress cons
          Optimization.Objective.maximizeStrategicValue).2 =
        Optimization.objTermSum cands (fun c => c.strategic_value) chosen := by
      rw [hres]
      unfold Optimization.valueOf
      exact (objTermSum_eq_filter cands hnd _ chosen).symm
    constructor
    · have hb2 : Optimization.budgetOf
          (Optimization.optimize_portfolio cands allocs ress cons
            Optimization.Objective.maximizeStrategicValue).2 =
          Optimization.objTermSum cands (fun c => c.budget_usd) chosen := by
        rw [hres]
        unfold Optimization.budgetOf
        exact (objTermSum_eq_filter cands hnd _ chosen).symm
      rw [hb2]
      unfold Optimization.feasibleAssign at hfeas
      rw [Bool.and_eq_true] at hfeas
      have hactive : Optimization.budgetConstraintActive cons = true := by
        simp [Optimization.budgetConstraintActive, hmb, hbpos]
      rw [if_pos hactive] at hfeas
      have h2 := of_decide_eq_true hfeas.1
      rw [hmb] at h2
      simpa using h2
    · intro S hS hfS
      have hsubS : S.Sublist cands := List.mem_sublists.1 hS
      have hSval : Optimization.valueOf S =
          Optimization.objTermSum cands (fun c => c.strategic_value)
            (S.map (fun c => c.id)) := by
        rw [objTermSum_eq_filter cands hnd,
          filter_id_mem_of_sublist cands S hsubS hnd]
        rfl
      have hch : (S.map (fun c => c.id)) ∈
          (Optimization.uniqueProjectIds cands).sublists := by
        rw [List.mem_sublists]
        unfold Optimization.uniqueProjectIds
        rw [List.dedup_eq_self.2 hnd]
        exact hsubS.map _
      have hfch : Optimization.feasibleAssign cands allocs ress cons
          (S.map (fun c => c.id)) = true := by
        rw [feasibleAssign_map_id cands allocs ress cons S hnd hsubS]
        exact hfS
      rw [hSval, hval]
      exact hopt _ hch hfch
  · have hBA : ("B" : String) ≠ "A" := by decide
    have hAB : ("A" : String) ≠ "B" := by decide
    have hexA : Optimization.extractId "A" = "A" := by decide
    have hu : Optimization.uniqueProjectIds [c7A, c7B] = ["A", "B"] := by decide
    have hsubl : (["A", "B"] : List String).sublists =
        [[], ["A"], ["B"], ["A", "B"]] := by decide
    have hidA : c7A.id = "A" := rfl
    have hidB : c7B.id = "B" := rfl
    have hvalA : c7A.strategic_value = 9 := rfl
    have hvalB : c7B.strategic_value = 7 := rfl
    have hbudA : c7A.budget_usd = 5000000 := rfl
    have hbudB : c7B.budget_usd = 6000000 := rfl
    have hriskA : c7A.risk_score = 5 := rfl
    have hmb : c7Constraints.max_budget = some 5000000 := rfl
    have hrc : c7Constraints.resource_constraints = [] := rfl
    norm_num [Optimization.optimize_portfolio, Optimization.solveBIP,
      Optimization.chooseBest, Optimization.chooseBestAux, Optimization.stepBest,
      Optimization.feasibleAssign, Optimization.budgetConstraintActive,
      Optimization.objTermSum, Optimization.firstRowVal, Optimization.budgetOf,
      Optimization.valueOf, Optimization.riskOf, hu, hsubl, hexA, hBA, hAB,
      hidA, hidB, hvalA, hvalB, hbudA, hbudB, hriskA, hmb, hrc,
      List.filter_cons, List.find?]

/-- Counterexample for C7 as stated, in three parts. (1) With supplied
`max_budget = 0` the code's `max_budget > 0` test drops the budget
constraint, so the returned subset ({A}, budget $5M) exceeds the supplied
bound. (2) With the repository-style id "NPD-001", PuLP sanitizes the
variable name to `Project_NPD_001` and `split('_')[1]` recovers "NPD", so
the `isin` re-selection is empty and the returned subset (value 0) is not
value-maximal — the feasible subset {NPD-001} has value 9. (3) With two
rows sharing id "A" (budgets $1M and $9M) and `max_budget = $2M`, the LP
sees one variable costed at twice the first row's budget while `isin`
returns both rows, so the returned subset's budget ($10M) exceeds the
supplied bound. -/
theorem claim_C7_counterexample :
    (c7ZeroBudget.max_budget = some 0 ∧
      (Optimization.optimize_portfolio [c7A] [] [] c7ZeroBudget
          Optimization.Objective.maximizeStrategicValue).2 = [c7A] ∧
      ¬ Optimization.budgetOf
          (Optimization.optimize_portfolio [c7A] [] [] c7ZeroBudget
            Optimization.Objective.maximizeStrategicValue).2 ≤ 0) ∧
    (c7HyphenCons.max_budget = some 10000000 ∧
      Optimization.subsetFeasible [] [] c7HyphenCons [c7Hyphen] = true ∧
      (Optimization.optimize_portfolio [c7Hyphen] [] [] c7HyphenCons
          Optimization.Objective.maximizeStrategicValue).2 = [] ∧
      ¬ Optimization.valueOf [c7Hyphen] ≤
        Optimization.valueOf ((Optimization.optimize_portfolio [c7Hyphen] [] []
          c7HyphenCons Optimization.Objective.maximizeStrategicValue).2)) ∧
    (c7DupCons.max_budget = some 2000000 ∧
      (Optimization.optimize_portfolio [c7DupA1, c7DupA2] [] [] c7DupCons
          Optimization.Objective.maximizeStrategicValue).2 = [c7DupA1, c7DupA2] ∧
      ¬ Optimization.budgetOf
          (Optimization.optimize_portfolio [c7DupA1, c7DupA2] [] [] c7DupCons
            Optimization.Objective.maximizeStrategicValue).2 ≤ 2000000) := by
  have hexA : Optimization.extractId "A" = "A" := by decide
  have hexN : Optimization.extractId "NPD-001" = "NPD" := by decide
  have hNPDne : ("NPD-001" : String) ≠ "NPD" := by decide
  have huA : Optimization.uniqueProjectIds [c7A] = ["A"] := by decide
  have hsublA : (["A"] : List String).sublists = [[], ["A"]] := by decide
  have huH : Optimization.uniqueProjectIds [c7Hyphen] = ["NPD-001"] := by decide
  have hsublH : (["NPD-001"] : List String).sublists = [[], ["NPD-001"]] := by decide
  have huD : Optimization.uniqueProjectIds [c7DupA1, c7DupA2] = ["A"] := by decide
  have hidA : c7A.id = "A" := rfl
  have hvalA : c7A.strategic_value = 9 := rfl
  have hbudA : c7A.budget_usd = 5000000 := rfl
  have hriskA : c7A.risk_score = 5 := rfl
  have hidH : c7Hyphen.id = "NPD-001" := rfl
  have hvalH : c7Hyphen.strategic_value = 9 := rfl
  have hbudH : c7Hyphen.budget_usd = 5000000 := rfl
  have hidD1 : c7DupA1.id = "A" := rfl
  have hidD2 : c7DupA2.id = "A" := rfl
  have hvalD1 : c7DupA1.strategic_value = 5 := rfl
  have hbudD1 : c7DupA1.budget_usd = 1000000 := rfl
  have hbudD2 : c7DupA2.budget_usd = 9000000 := rfl
  have hriskD1 : c7DupA1.risk_score = 5 := rfl
  have hriskD2 : c7DupA2.risk_score = 5 := rfl
  have hmbZ : c7ZeroBudget.max_budget = some 0 := rfl
  have hrcZ : c7ZeroBudget.resource_constraints = ([] : List (String × ℚ)) := rfl
  have hmbH : c7HyphenCons.max_budget = some 10000000 := rfl
  have hrcH : c7HyphenCons.resource_constraints = ([] : List (String × ℚ)) := rfl
  have hmbD : c7DupCons.max_budget = some 2000000 := rfl
  have hrcD : c7DupCons.resource_constraints = ([] : List (String × ℚ)) := rfl
  refine ⟨⟨rfl, ?_, ?_⟩, ⟨rfl, ?_, ?_, ?_⟩, ⟨rfl, ?_, ?_⟩⟩ <;>
    norm_num [Optimization.optimize_portfolio, Optimization.solveBIP,
      Optimization.chooseBest, Optimization.chooseBestAux, Optimization.stepBest,
      Optimization.feasibleAssign, Optimization.subsetFeasible,
      Optimization.budgetConstraintActive, Optimization.objTermSum,
      Optimization.firstRowVal, Optimization.budgetOf, Optimization.valueOf,
      Optimization.riskOf, hexA, hexN, hNPDne, huA, hsublA, huH, hsublH, huD,
      hidA, hvalA, hbudA, hriskA, hidH, hvalH, hbudH, hidD1, hidD2, hvalD1,
      hbudD1, hbudD2, hriskD1, hriskD2, hmbZ, hrcZ, hmbH, hrcH, hmbD, hrcD,
      List.filter_cons, List.find?]

/-- Witness for C7: the amended statement instantiated at the
two-candidate fixture — ids "A" and "B" are distinct and survive the
PuLP name round-trip, and the supplied budget $5M is positive. -/
theorem claim_C7_witness :
    c7Constraints.max_budget = some 5000000 ∧ (0 : ℚ) < 5000000 ∧
    (([c7A, c7B] : List Optimization.Cand).map (fun c => c.id)).Nodup ∧
    Optimization.extractId "A" = "A" ∧ Optimization.extractId "B" = "B" ∧
    (Optimization.budgetOf
        (Optimization.optimize_portfolio [c7A, c7B] [] [] c7Constraints
          Optimization.Objective.maximizeStrategicValue).2 ≤ 5000000 ∧
      ∀ S ∈ ([c7A, c7B] : List Optimization.Cand).sublists,
        Optimization.subsetFeasible [] [] c7Constraints S = true →
        Optimization.valueOf S ≤
          Optimization.valueOf (Optimization.optimize_portfolio [c7A, c7B] [] []
            c7Constraints Optimization.Objective.maximizeStrategicValue).2) :=
  ⟨rfl, by norm_num, by decide, by decide, by decide,
    claim_C7.1 [c7A, c7B] [] [] c7Constraints 5000000 rfl (by norm_num) (by decide)
      (by decide)⟩

set_option maxHeartbeats 2000000 in
/-- Claim C10 (code behaviour at the failing input): two runs of
`_initialize_data_cache` on the same day whose ambient PRNG states differ
produce different `financials` (first divergence: NPD-001's first actuals
row, amount 4100000/5 x 0.9 vs x 1.1) and different
`resource_demand_history` (randint summand 0 vs 1) — the function sets no
seed, so the generated collections are not reproducible across runs,
contradicting the claimed seed-42 determinism. -/
theorem claim_C10 :
    (DataConnectors.initialize_data_cache DataConnectors.rngLow).financials ≠
      (DataConnectors.initialize_data_cache DataConnectors.rngHigh).financials ∧
    (DataConnectors.initialize_data_cache
        DataConnectors.rngLow).resource_demand_history ≠
      (DataConnectors.initialize_data_cache
        DataConnectors.rngShift).resource_demand_history := by
  have hOT : ("On Track" : String) ≠ "Completed" := by decide
  have hAR : ("At Risk" : String) ≠ "Completed" := by decide
  have hNM : ("Needs Monitoring" : String) ≠ "Completed" := by decide
  have hkLow : (DataConnectors.genFinancials DataConnectors.rngLow
      DataConnectors.cacheProjects 0).2 = 12 := by
    norm_num [DataConnectors.genFinancials, DataConnectors.projectFinancials,
      DataConnectors.finLoop, DataConnectors.cacheProjects, DataConnectors.rngLow,
      hOT, hAR, hNM]
  have hkShift : (DataConnectors.genFinancials DataConnectors.rngShift
      DataConnectors.cacheProjects 0).2 = 12 := by
    norm_num [DataConnectors.genFinancials, DataConnectors.projectFinancials,
      DataConnectors.finLoop, DataConnectors.cacheProjects, DataConnectors.rngShift,
      hOT, hAR, hNM]
  have hdem : (DataConnectors.genDemandHistory DataConnectors.rngLow
        (DataConnectors.rolesInPool DataConnectors.enterprise_resources) 12).1 ≠
      (DataConnectors.genDemandHistory DataConnectors.rngShift
        (DataConnectors.rolesInPool DataConnectors.enterprise_resources) 12).1 := by
    decide
  constructor
  · intro h
    have h6 := congrArg (fun l => l.get? 6) h
    norm_num [DataConnectors.initialize_data_cache, DataConnectors.genFinancials,
      DataConnectors.projectFinancials, DataConnectors.finLoop,
      DataConnectors.cacheProjects, DataConnectors.rngLow,
      DataConnectors.rngHigh, hOT, hAR, hNM] at h6
  · intro h
    simp only [DataConnectors.initialize_data_cache] at h
    rw [hkLow, hkShift] at h
    exact hdem h

/-- Witness for C5: a history with only two labelled rows triggers the
sentinel, and the sentinel predicts exactly (0, no contributions). -/
theorem claim_C5_witness :
    ((c5Projects.filter (fun p => p.final_outcome.isSome)).length < 5) ∧
    MlModels.train_schedule_risk_model c5Fit c5Projects = none ∧
    MlModels.predict_project_schedule_risk none none c5Row = (0, none) :=
  ⟨by decide, claim_C5.1 c5Fit c5Projects (Or.inl (by decide)), claim_C5.2 none c5Row⟩

end PMO
